import Mathlib

/-!
Verification of the peg-out transaction-graph state machine
(`bridge/src/graphs/peg_out.rs`) against its natural-language specification.

The graph-level plumbing (`PegOutGraph::new`, `new_for_validation`,
`verifier_sign`, `push_verifier_nonces`, `validate`, the status projections,
the action methods, `match_and_set_peg_out_event`, `all_presigned_txs`,
`has_all_nonces` / `has_all_signatures`) is translated from the source.
The leaf modules the graph consumes (individual transaction constructors,
connectors, the MuSig2 store `pre_signed_musig2.rs`) are not part of the
source tree given here; they are modelled from the specification and each
such definition says so in its doc comment.

Conventions of the shallow embedding:
- public keys, script bytes, Winternitz keys and signature bytes are `Nat`s;
- a transaction body records its kind (the public material the constructor
  received), its inputs (`previous_output` plus the cached `prev_outs` value)
  and its outputs; `compute_txid` is the serialization of the body, standing
  in for the SHA256 txid (only congruence of the hash is ever used);
- `HashMap`s are association lists; the chain client is a function from
  txid to `Option TxStatus` (`none` models a client error);
- Rust panics are modelled by an `Option` result where a claim depends on
  them.
-/

namespace PegOut

/-- Bitcoin network tag (`bitcoin::Network`). -/
inductive Network where
  | bitcoin
  | testnet
  | regtest
deriving DecidableEq, Repr

/-- Compressed public key, abstracted to a `Nat`. -/
abbrev PublicKey := Nat

/-- X-only taproot public key, abstracted to a `Nat`. -/
abbrev XOnlyPublicKey := Nat

/-- Satoshi amount. -/
abbrev Amount := Nat

/-- Winternitz one-time secret key (abstracted). -/
abbrev WinternitzSecret := Nat

/-- Winternitz one-time public key (abstracted). -/
abbrev WinternitzPublicKey := Nat

/-- Modelled from the spec: `WinternitzPublicKey::from(&secret)` is a
deterministic derivation of the public key from the secret
(`signing_winternitz.rs` is absent from `src/`); the derivation function
itself is abstracted to the identity on the `Nat` codes. -/
def winternitz_public_key_from (s : WinternitzSecret) : WinternitzPublicKey := s

/-- `CommitmentMessageId` from `peg_out.rs`: the tagged name of one
Winternitz-committed message. -/
inductive CommitmentMessageId where
  | PegOutTxIdSourceNetwork
  | PegOutTxIdDestinationNetwork
  | StartTime
  | Superblock
  | SuperblockHash
  | Groth16IntermediateValues (name : String) (len : Nat)
deriving DecidableEq, Repr

/-- Map from commitment message ids to Winternitz public keys
(`HashMap<CommitmentMessageId, WinternitzPublicKey>` as an association list). -/
abbrev CommitPkMap := List (CommitmentMessageId × WinternitzPublicKey)

/-- Txid: the serialized transaction body, standing in for its SHA256 hash. -/
abbrev Txid := List Nat

/-- `bitcoin::OutPoint`. -/
structure OutPoint where
  txid : Txid
  vout : Nat
deriving DecidableEq, Repr

/-- `Input { outpoint, amount }` from `transactions/base.rs`: an input
outpoint together with the amount of the output it spends. -/
structure Input where
  outpoint : OutPoint
  amount : Amount
deriving DecidableEq, Repr

/-- One transaction output: value plus script pubkey (scripts abstracted to
`Nat` codes; script assembly is an explicit non-goal of the spec). -/
structure TxOut where
  value : Amount
  script_pubkey : Nat
deriving DecidableEq, Repr

instance : Inhabited TxOut := ⟨⟨0, 0⟩⟩

instance : Inhabited Input := ⟨⟨⟨[], 0⟩, 0⟩⟩

/-- Connector 0 (spends to the n-of-n key). Fields are the arguments of
`Connector0::new` in `create_new_connectors`. -/
structure Connector0 where
  network : Network
  n_of_n_taproot_public_key : XOnlyPublicKey
deriving DecidableEq, Repr

/-- Modelled from the spec: connector 1 carries three timelock-leaf
parameters measured in blocks (`connector_1.rs` is absent from `src/`;
the concrete constants are abstracted). -/
def connector1TimelockLeaf0 : Nat := 6

/-- Modelled from the spec: connector 1 leaf-1 timelock constant. -/
def connector1TimelockLeaf1 : Nat := 144

/-- Modelled from the spec: connector 1 leaf-2 timelock constant. -/
def connector1TimelockLeaf2 : Nat := 72

/-- Modelled from the spec: connector 3 timelock constant. -/
def connector3Timelock : Nat := 144

/-- Modelled from the spec: connector 4 timelock constant. -/
def connector4Timelock : Nat := 144

/-- Modelled from the spec: connector b timelock-1 constant. -/
def connectorBTimelock1 : Nat := 144

/-- Connector 1: operator/n-of-n taproot keys plus superblock commitment
public keys and the three timelock leaves read by the status projections. -/
structure Connector1 where
  network : Network
  operator_taproot_public_key : XOnlyPublicKey
  n_of_n_taproot_public_key : XOnlyPublicKey
  commitment_public_keys : CommitPkMap
  num_blocks_timelock_leaf_0 : Nat
  num_blocks_timelock_leaf_1 : Nat
  num_blocks_timelock_leaf_2 : Nat
deriving DecidableEq, Repr

/-- Modelled from the spec: `Connector1::new` stores its arguments and the
fixed timelock constants (`connector_1.rs` absent from `src/`). -/
def Connector1.new (network : Network) (op nn : XOnlyPublicKey)
    (cpks : CommitPkMap) : Connector1 :=
  ⟨network, op, nn, cpks, connector1TimelockLeaf0, connector1TimelockLeaf1,
    connector1TimelockLeaf2⟩

/-- Connector 2: start-time commitment keys. -/
structure Connector2 where
  network : Network
  operator_taproot_public_key : XOnlyPublicKey
  n_of_n_taproot_public_key : XOnlyPublicKey
  commitment_public_keys : CommitPkMap
deriving DecidableEq, Repr

/-- Connector 3 with its timelock parameter. -/
structure Connector3 where
  network : Network
  operator_public_key : PublicKey
  num_blocks_timelock : Nat
deriving DecidableEq, Repr

/-- Modelled from the spec: `Connector3::new` stores its arguments and the
fixed timelock constant (`connector_3.rs` absent from `src/`). -/
def Connector3.new (network : Network) (op : PublicKey) : Connector3 :=
  ⟨network, op, connector3Timelock⟩

/-- Connector 4 with its timelock parameter. -/
structure Connector4 where
  network : Network
  operator_public_key : PublicKey
  num_blocks_timelock : Nat
deriving DecidableEq, Repr

/-- Modelled from the spec: `Connector4::new` stores its arguments and the
fixed timelock constant (`connector_4.rs` absent from `src/`). -/
def Connector4.new (network : Network) (op : PublicKey) : Connector4 :=
  ⟨network, op, connector4Timelock⟩

/-- Connector 5 (n-of-n owned). -/
structure Connector5 where
  network : Network
  n_of_n_taproot_public_key : XOnlyPublicKey
deriving DecidableEq, Repr

/-- Connector 6: peg-out txid commitment keys. -/
structure Connector6 where
  network : Network
  operator_taproot_public_key : XOnlyPublicKey
  commitment_public_keys : CommitPkMap
deriving DecidableEq, Repr

/-- Connector a. -/
structure ConnectorA where
  network : Network
  operator_taproot_public_key : XOnlyPublicKey
  n_of_n_taproot_public_key : XOnlyPublicKey
deriving DecidableEq, Repr

/-- Connector b with its timelock-1 parameter read by the operator
projection. -/
structure ConnectorB where
  network : Network
  n_of_n_taproot_public_key : XOnlyPublicKey
  num_blocks_timelock_1 : Nat
deriving DecidableEq, Repr

/-- Modelled from the spec: `ConnectorB::new` stores its arguments and the
fixed timelock constant (`connector_b.rs` absent from `src/`). -/
def ConnectorB.new (network : Network) (nn : XOnlyPublicKey) : ConnectorB :=
  ⟨network, nn, connectorBTimelock1⟩

/-- Connector c: the union of the e-family commitment public keys. -/
structure ConnectorC where
  network : Network
  operator_taproot_public_key : XOnlyPublicKey
  commitment_public_keys : CommitPkMap
deriving DecidableEq, Repr

/-- Connector d. -/
structure ConnectorD where
  network : Network
  n_of_n_taproot_public_key : XOnlyPublicKey
deriving DecidableEq, Repr

/-- Connector e: one Groth16 intermediate-value commitment connector. -/
structure ConnectorE where
  network : Network
  operator_public_key : PublicKey
  commitment_public_keys : CommitPkMap
deriving DecidableEq, Repr

/-- `AssertCommit1ConnectorsE`: the first e-family connector set. -/
structure AssertCommit1ConnectorsE where
  connectors_e : List ConnectorE
deriving DecidableEq, Repr

/-- `AssertCommit2ConnectorsE`: the second e-family connector set. -/
structure AssertCommit2ConnectorsE where
  connectors_e : List ConnectorE
deriving DecidableEq, Repr

/-- Number of connectors in the first e-family set. -/
def AssertCommit1ConnectorsE.connectors_num (c : AssertCommit1ConnectorsE) : Nat :=
  c.connectors_e.length

/-- Commitment public keys of the first e-family set, one map per connector. -/
def AssertCommit1ConnectorsE.commitment_public_keys
    (c : AssertCommit1ConnectorsE) : List CommitPkMap :=
  c.connectors_e.map (fun e => e.commitment_public_keys)

/-- Number of connectors in the second e-family set. -/
def AssertCommit2ConnectorsE.connectors_num (c : AssertCommit2ConnectorsE) : Nat :=
  c.connectors_e.length

/-- Commitment public keys of the second e-family set, one map per connector. -/
def AssertCommit2ConnectorsE.commitment_public_keys
    (c : AssertCommit2ConnectorsE) : List CommitPkMap :=
  c.connectors_e.map (fun e => e.commitment_public_keys)

/-- Connector f1. -/
structure ConnectorF1 where
  network : Network
  operator_public_key : PublicKey
deriving DecidableEq, Repr

/-- Connector f2. -/
structure ConnectorF2 where
  network : Network
  operator_public_key : PublicKey
deriving DecidableEq, Repr

/-- `AssertCommitConnectorsF`: the f-connector pair. -/
structure AssertCommitConnectorsF where
  connector_f_1 : ConnectorF1
  connector_f_2 : ConnectorF2
deriving DecidableEq, Repr

/-- The public material each transaction constructor receives, one variant
per transaction of the graph.  The parameters of each variant are exactly
the arguments of the corresponding `*Transaction::new_for_validation`
constructor (the full constructor passes the same values, extracted from the
operator context); `external` stands for transactions built outside the
graph, such as the peg-in confirm transaction. -/
inductive TxKind where
  | external (tag : Nat)
  | pegOutConfirm (network : Network) (operator_public_key : PublicKey)
      (c6 : Connector6)
  | kickOff1 (network : Network) (operator_taproot_public_key : XOnlyPublicKey)
      (n_of_n_taproot_public_key : XOnlyPublicKey)
      (c1 : Connector1) (c2 : Connector2) (c6 : Connector6)
  | startTime (network : Network) (operator_public_key : PublicKey)
      (c2 : Connector2)
  | startTimeTimeout (network : Network) (c1 : Connector1) (c2 : Connector2)
  | kickOff2 (network : Network) (operator_public_key : PublicKey)
      (n_of_n_taproot_public_key : XOnlyPublicKey) (c1 : Connector1)
  | kickOffTimeout (network : Network) (c1 : Connector1)
  | challenge (network : Network) (operator_public_key : PublicKey)
      (ca : ConnectorA) (input_amount_crowdfunding : Amount)
  | take1 (network : Network) (operator_public_key : PublicKey)
      (c0 : Connector0) (c3 : Connector3) (ca : ConnectorA) (cb : ConnectorB)
  | assertInitial (cb : ConnectorB) (cd : ConnectorD)
      (e1 : AssertCommit1ConnectorsE) (e2 : AssertCommit2ConnectorsE)
  | assertCommit1 (e1 : AssertCommit1ConnectorsE) (f1 : ConnectorF1)
  | assertCommit2 (e2 : AssertCommit2ConnectorsE) (f2 : ConnectorF2)
  | assertFinal (c4 : Connector4) (c5 : Connector5) (cc : ConnectorC)
      (cd : ConnectorD) (cf : AssertCommitConnectorsF)
  | take2 (network : Network) (operator_public_key : PublicKey)
      (c0 : Connector0) (c4 : Connector4) (c5 : Connector5) (cc : ConnectorC)
  | disprove (network : Network) (c5 : Connector5) (cc : ConnectorC)
      (script_index : Nat)
  | disproveChain (network : Network) (cb : ConnectorB)
deriving DecidableEq, Repr

/-- A transaction body: the constructor material, the inputs
(`tx.input[i].previous_output` paired with the cached `prev_outs()[i].value`)
and the outputs. Byte-for-byte equality of serialized transactions is
equality of bodies. -/
structure TxBody where
  kind : TxKind
  inputs : List Input
  outputs : List TxOut
deriving DecidableEq, Repr

/-- Serialization of a network tag. -/
def Network.ser : Network → Nat
  | .bitcoin => 0
  | .testnet => 1
  | .regtest => 2

/-- Serialization of a commitment message id. -/
def CommitmentMessageId.ser : CommitmentMessageId → List Nat
  | .PegOutTxIdSourceNetwork => [0]
  | .PegOutTxIdDestinationNetwork => [1]
  | .StartTime => [2]
  | .Superblock => [3]
  | .SuperblockHash => [4]
  | .Groth16IntermediateValues name len =>
      5 :: len :: name.toList.map Char.toNat

/-- Serialization of a commitment public-key map. -/
def CommitPkMap.ser (m : CommitPkMap) : List Nat :=
  m.flatMap (fun e => e.1.ser ++ [e.2])

/-- Serialization of an e-family connector list. -/
def serConnectorsE (l : List ConnectorE) : List Nat :=
  l.flatMap (fun e =>
    [e.network.ser, e.operator_public_key] ++ e.commitment_public_keys.ser)

/-- Serialization of a transaction kind. -/
def TxKind.ser : TxKind → List Nat
  | .external tag => [0, tag]
  | .pegOutConfirm n op c6 =>
      [1, n.ser, op, c6.network.ser, c6.operator_taproot_public_key] ++
        c6.commitment_public_keys.ser
  | .kickOff1 n op nn c1 c2 c6 =>
      [2, n.ser, op, nn, c1.network.ser, c1.operator_taproot_public_key,
        c1.n_of_n_taproot_public_key, c1.num_blocks_timelock_leaf_0,
        c1.num_blocks_timelock_leaf_1, c1.num_blocks_timelock_leaf_2] ++
        c1.commitment_public_keys.ser ++
        [c2.network.ser, c2.operator_taproot_public_key,
          c2.n_of_n_taproot_public_key] ++ c2.commitment_public_keys.ser ++
        [c6.network.ser, c6.operator_taproot_public_key] ++
        c6.commitment_public_keys.ser
  | .startTime n op c2 =>
      [3, n.ser, op, c2.network.ser, c2.operator_taproot_public_key,
        c2.n_of_n_taproot_public_key] ++ c2.commitment_public_keys.ser
  | .startTimeTimeout n c1 c2 =>
      [4, n.ser, c1.network.ser, c1.operator_taproot_public_key,
        c1.n_of_n_taproot_public_key, c1.num_blocks_timelock_leaf_0,
        c1.num_blocks_timelock_leaf_1, c1.num_blocks_timelock_leaf_2] ++
        c1.commitment_public_keys.ser ++
        [c2.network.ser, c2.operator_taproot_public_key,
          c2.n_of_n_taproot_public_key] ++ c2.commitment_public_keys.ser
  | .kickOff2 n op nn c1 =>
      [5, n.ser, op, nn, c1.network.ser, c1.operator_taproot_public_key,
        c1.n_of_n_taproot_public_key, c1.num_blocks_timelock_leaf_0,
        c1.num_blocks_timelock_leaf_1, c1.num_blocks_timelock_leaf_2] ++
        c1.commitment_public_keys.ser
  | .kickOffTimeout n c1 =>
      [6, n.ser, c1.network.ser, c1.operator_taproot_public_key,
        c1.n_of_n_taproot_public_key, c1.num_blocks_timelock_leaf_0,
        c1.num_blocks_timelock_leaf_1, c1.num_blocks_timelock_leaf_2] ++
        c1.commitment_public_keys.ser
  | .challenge n op ca amt =>
      [7, n.ser, op, ca.network.ser, ca.operator_taproot_public_key,
        ca.n_of_n_taproot_public_key, amt]
  | .take1 n op c0 c3 ca cb =>
      [8, n.ser, op, c0.network.ser, c0.n_of_n_taproot_public_key,
        c3.network.ser, c3.operator_public_key, c3.num_blocks_timelock,
        ca.network.ser, ca.operator_taproot_public_key,
        ca.n_of_n_taproot_public_key, cb.network.ser,
        cb.n_of_n_taproot_public_key, cb.num_blocks_timelock_1]
  | .assertInitial cb cd e1 e2 =>
      [9, cb.network.ser, cb.n_of_n_taproot_public_key,
        cb.num_blocks_timelock_1, cd.network.ser,
        cd.n_of_n_taproot_public_key] ++
        serConnectorsE e1.connectors_e ++ serConnectorsE e2.connectors_e
  | .assertCommit1 e1 f1 =>
      [10, f1.network.ser, f1.operator_public_key] ++
        serConnectorsE e1.connectors_e
  | .assertCommit2 e2 f2 =>
      [11, f2.network.ser, f2.operator_public_key] ++
        serConnectorsE e2.connectors_e
  | .assertFinal c4 c5 cc cd cf =>
      [12, c4.network.ser, c4.operator_public_key, c4.num_blocks_timelock,
        c5.network.ser, c5.n_of_n_taproot_public_key, cc.network.ser,
        cc.operator_taproot_public_key] ++ cc.commitment_public_keys.ser ++
        [cd.network.ser, cd.n_of_n_taproot_public_key,
          cf.connector_f_1.network.ser, cf.connector_f_1.operator_public_key,
          cf.connector_f_2.network.ser, cf.connector_f_2.operator_public_key]
  | .take2 n op c0 c4 c5 cc =>
      [13, n.ser, op, c0.network.ser, c0.n_of_n_taproot_public_key,
        c4.network.ser, c4.operator_public_key, c4.num_blocks_timelock,
        c5.network.ser, c5.n_of_n_taproot_public_key, cc.network.ser,
        cc.operator_taproot_public_key] ++ cc.commitment_public_keys.ser
  | .disprove n c5 cc idx =>
      [14, n.ser, c5.network.ser, c5.n_of_n_taproot_public_key,
        cc.network.ser, cc.operator_taproot_public_key, idx] ++
        cc.commitment_public_keys.ser
  | .disproveChain n cb =>
      [15, n.ser, cb.network.ser, cb.n_of_n_taproot_public_key,
        cb.num_blocks_timelock_1]

/-- `tx().compute_txid()`: serialization of the body, standing in for the
double-SHA256 txid (the model only ever uses that equal bodies have equal
txids). -/
def TxBody.compute_txid (b : TxBody) : Txid :=
  b.kind.ser ++
    b.inputs.flatMap (fun i => i.outpoint.vout :: i.amount :: i.outpoint.txid) ++
    b.outputs.flatMap (fun o => [o.value, o.script_pubkey])

/-- A graph transaction together with its MuSig2 pre-sign state.  Modelled
from the spec §4.4 (`pre_signed_musig2.rs` is absent from `src/`): for each
input, public nonces and partial signatures per signer.  Entries are
`(input index, signer public key, nonce or signature bytes)`. -/
structure PreSignedTx where
  tx : TxBody
  pub_nonces : List (Nat × PublicKey × Nat)
  partial_sigs : List (Nat × PublicKey × Nat)
deriving DecidableEq, Repr

/-- `prev_outs()[i].value`: the cached value of the output spent by input
`i`, which the graph stores alongside each input. -/
def PreSignedTx.prev_out_value (t : PreSignedTx) (i : Nat) : Amount :=
  (t.tx.inputs.getD i default).amount

/-- `OperatorContext` (`contexts/operator.rs`, absent from `src/`; fields
are the ones the graph reads). -/
structure OperatorContext where
  network : Network
  operator_public_key : PublicKey
  operator_taproot_public_key : XOnlyPublicKey
  n_of_n_public_key : PublicKey
  n_of_n_taproot_public_key : XOnlyPublicKey
deriving Repr

/-- `VerifierContext` (`contexts/verifier.rs`, absent from `src/`). -/
structure VerifierContext where
  network : Network
  verifier_public_key : PublicKey
  n_of_n_public_key : PublicKey
  n_of_n_taproot_public_key : XOnlyPublicKey
deriving Repr

/-- Modelled from the spec §4.4: `push_nonces` samples a nonce pair for
every input, publishes the public nonce under the verifier's key and
returns the secret nonces.  Randomness is the injected `nf`; the secret
and public halves of a nonce pair share the `Nat` code. -/
def PreSignedTx.push_nonces (t : PreSignedTx) (ctx : VerifierContext)
    (nf : Nat → Nat) : PreSignedTx × List (Nat × Nat) :=
  ({ t with
      pub_nonces := t.pub_nonces ++
        (List.range t.tx.inputs.length).map
          (fun i => (i, ctx.verifier_public_key, nf i)) },
    (List.range t.tx.inputs.length).map (fun i => (i, nf i)))

/-- Modelled from the spec §4.4: `pre_sign` produces and stores one partial
signature per input under the verifier's key, from the held public nonces
and the provided secret nonce (signature bytes abstracted to the secret
nonce code). -/
def PreSignedTx.pre_sign (t : PreSignedTx) (ctx : VerifierContext)
    (secret_nonces : List (Nat × Nat)) : PreSignedTx :=
  { t with
      partial_sigs := t.partial_sigs ++
        (List.range t.tx.inputs.length).map
          (fun i => (i, ctx.verifier_public_key,
            (List.lookup i secret_nonces).getD 0)) }

/-- Modelled from the spec §4.4: a signer's nonces are complete for a
transaction when every input holds a public nonce under that signer's key. -/
def PreSignedTx.has_nonces_for (t : PreSignedTx) (pk : PublicKey) : Bool :=
  (List.range t.tx.inputs.length).all
    (fun i => t.pub_nonces.any (fun e => e.1 == i && e.2.1 == pk))

/-- Modelled from the spec §4.4: nonces are complete when every declared
signer's nonces are complete. -/
def PreSignedTx.has_all_nonces (t : PreSignedTx)
    (verifier_pubkeys : List PublicKey) : Bool :=
  verifier_pubkeys.all (fun pk => t.has_nonces_for pk)

/-- Modelled from the spec §4.4: a signer's partial signatures are complete
for a transaction when every input holds one under that signer's key. -/
def PreSignedTx.has_signatures_for (t : PreSignedTx) (pk : PublicKey) : Bool :=
  (List.range t.tx.inputs.length).all
    (fun i => t.partial_sigs.any (fun e => e.1 == i && e.2.1 == pk))

/-- Modelled from the spec §4.4: partial signatures are complete when every
declared signer's are. -/
def PreSignedTx.has_all_signatures (t : PreSignedTx)
    (verifier_pubkeys : List PublicKey) : Bool :=
  verifier_pubkeys.all (fun pk => t.has_signatures_for pk)

/-- Modelled from the spec §4.3: `PegOutConfirmTransaction` validation
constructor.  The body is fully determined by the public material and the
input; output values are a fixed deterministic function of the input
amounts (the concrete fee split is abstracted) and scripts are opaque. -/
def PegOutConfirmTransaction.new_for_validation (network : Network)
    (operator_public_key : PublicKey) (c6 : Connector6) (input : Input) :
    PreSignedTx :=
  ⟨{ kind := .pegOutConfirm network operator_public_key c6,
     inputs := [input], outputs := [⟨input.amount, 0⟩] }, [], []⟩

/-- Modelled from the spec §4.3: the full constructor produces the same
body as the validation constructor, from the operator context. -/
def PegOutConfirmTransaction.new (context : OperatorContext)
    (c6 : Connector6) (input : Input) : PreSignedTx :=
  PegOutConfirmTransaction.new_for_validation context.network
    context.operator_public_key c6 input

/-- Modelled from the spec §4.3: `KickOff1Transaction` validation
constructor (three outputs: connector a, connector 1, connector 2). -/
def KickOff1Transaction.new_for_validation (network : Network)
    (operator_taproot_public_key n_of_n_taproot_public_key : XOnlyPublicKey)
    (c1 : Connector1) (c2 : Connector2) (c6 : Connector6) (input : Input) :
    PreSignedTx :=
  ⟨{ kind := .kickOff1 network operator_taproot_public_key
       n_of_n_taproot_public_key c1 c2 c6,
     inputs := [input],
     outputs := List.replicate 3 ⟨input.amount, 0⟩ }, [], []⟩

/-- Modelled from the spec §4.3: full `KickOff1Transaction` constructor. -/
def KickOff1Transaction.new (context : OperatorContext) (c1 : Connector1)
    (c2 : Connector2) (c6 : Connector6) (input : Input) : PreSignedTx :=
  KickOff1Transaction.new_for_validation context.network
    context.operator_taproot_public_key context.n_of_n_taproot_public_key
    c1 c2 c6 input

/-- Modelled from the spec §4.3: `StartTimeTransaction` validation
constructor. -/
def StartTimeTransaction.new_for_validation (network : Network)
    (operator_public_key : PublicKey) (c2 : Connector2) (input : Input) :
    PreSignedTx :=
  ⟨{ kind := .startTime network operator_public_key c2,
     inputs := [input], outputs := [⟨input.amount, 0⟩] }, [], []⟩

/-- Modelled from the spec §4.3: full `StartTimeTransaction` constructor. -/
def StartTimeTransaction.new (context : OperatorContext) (c2 : Connector2)
    (input : Input) : PreSignedTx :=
  StartTimeTransaction.new_for_validation context.network
    context.operator_public_key c2 input

/-- Modelled from the spec §4.3: `StartTimeTimeoutTransaction` validation
constructor. -/
def StartTimeTimeoutTransaction.new_for_validation (network : Network)
    (c1 : Connector1) (c2 : Connector2) (input_0 input_1 : Input) :
    PreSignedTx :=
  ⟨{ kind := .startTimeTimeout network c1 c2,
     inputs := [input_0, input_1],
     outputs := [⟨input_0.amount + input_1.amount, 0⟩] }, [], []⟩

/-- Modelled from the spec §4.3: full `StartTimeTimeoutTransaction`
constructor (the body does not depend on the operator context). -/
def StartTimeTimeoutTransaction.new (context : OperatorContext)
    (c1 : Connector1) (c2 : Connector2) (input_0 input_1 : Input) :
    PreSignedTx :=
  StartTimeTimeoutTransaction.new_for_validation context.network c1 c2
    input_0 input_1

/-- Modelled from the spec §4.3: `KickOff2Transaction` validation
constructor (two outputs: connector 3, connector b). -/
def KickOff2Transaction.new_for_validation (network : Network)
    (operator_public_key : PublicKey)
    (n_of_n_taproot_public_key : XOnlyPublicKey) (c1 : Connector1)
    (input : Input) : PreSignedTx :=
  ⟨{ kind := .kickOff2 network operator_public_key n_of_n_taproot_public_key c1,
     inputs := [input],
     outputs := List.replicate 2 ⟨input.amount, 0⟩ }, [], []⟩

/-- Modelled from the spec §4.3: full `KickOff2Transaction` constructor. -/
def KickOff2Transaction.new (context : OperatorContext) (c1 : Connector1)
    (input : Input) : PreSignedTx :=
  KickOff2Transaction.new_for_validation context.network
    context.operator_public_key context.n_of_n_taproot_public_key c1 input

/-- Modelled from the spec §4.3: `KickOffTimeoutTransaction` validation
constructor. -/
def KickOffTimeoutTransaction.new_for_validation (network : Network)
    (c1 : Connector1) (input : Input) : PreSignedTx :=
  ⟨{ kind := .kickOffTimeout network c1,
     inputs := [input], outputs := [⟨input.amount, 0⟩] }, [], []⟩

/-- Modelled from the spec §4.3: full `KickOffTimeoutTransaction`
constructor. -/
def KickOffTimeoutTransaction.new (context : OperatorContext)
    (c1 : Connector1) (input : Input) : PreSignedTx :=
  KickOffTimeoutTransaction.new_for_validation context.network c1 input

/-- Modelled from the spec §4.3: `ChallengeTransaction` validation
constructor (crowdfunding inputs are added later by the action method). -/
def ChallengeTransaction.new_for_validation (network : Network)
    (operator_public_key : PublicKey) (ca : ConnectorA) (input : Input)
    (input_amount_crowdfunding : Amount) : PreSignedTx :=
  ⟨{ kind := .challenge network operator_public_key ca
       input_amount_crowdfunding,
     inputs := [input],
     outputs := [⟨input.amount + input_amount_crowdfunding, 0⟩] }, [], []⟩

/-- Modelled from the spec §4.3: full `ChallengeTransaction` constructor. -/
def ChallengeTransaction.new (context : OperatorContext) (ca : ConnectorA)
    (input : Input) (input_amount_crowdfunding : Amount) : PreSignedTx :=
  ChallengeTransaction.new_for_validation context.network
    context.operator_public_key ca input input_amount_crowdfunding

/-- Modelled from the spec §4.3: `Take1Transaction` validation constructor. -/
def Take1Transaction.new_for_validation (network : Network)
    (operator_public_key : PublicKey) (c0 : Connector0) (c3 : Connector3)
    (ca : ConnectorA) (cb : ConnectorB)
    (input_0 input_1 input_2 input_3 : Input) : PreSignedTx :=
  ⟨{ kind := .take1 network operator_public_key c0 c3 ca cb,
     inputs := [input_0, input_1, input_2, input_3],
     outputs := [⟨input_0.amount + input_1.amount + input_2.amount +
       input_3.amount, 0⟩] }, [], []⟩

/-- Modelled from the spec §4.3: full `Take1Transaction` constructor. -/
def Take1Transaction.new (context : OperatorContext) (c0 : Connector0)
    (c3 : Connector3) (ca : ConnectorA) (cb : ConnectorB)
    (input_0 input_1 input_2 input_3 : Input) : PreSignedTx :=
  Take1Transaction.new_for_validation context.network
    context.operator_public_key c0 c3 ca cb input_0 input_1 input_2 input_3

/-- Modelled from the spec §4.3: `AssertInitialTransaction` validation
constructor (outputs: connector d, then one output per e-family
connector). -/
def AssertInitialTransaction.new_for_validation (cb : ConnectorB)
    (cd : ConnectorD) (e1 : AssertCommit1ConnectorsE)
    (e2 : AssertCommit2ConnectorsE) (input : Input) : PreSignedTx :=
  ⟨{ kind := .assertInitial cb cd e1 e2,
     inputs := [input],
     outputs := List.replicate (1 + e1.connectors_num + e2.connectors_num)
       ⟨input.amount, 0⟩ }, [], []⟩

/-- Source `AssertInitialTransaction::new` takes no operator context; the
full constructor coincides with the validation constructor. -/
def AssertInitialTransaction.new (cb : ConnectorB) (cd : ConnectorD)
    (e1 : AssertCommit1ConnectorsE) (e2 : AssertCommit2ConnectorsE)
    (input : Input) : PreSignedTx :=
  AssertInitialTransaction.new_for_validation cb cd e1 e2 input

/-- Modelled from the spec §4.3: `AssertCommit1Transaction` validation
constructor (variable input count, one per e₁ connector). -/
def AssertCommit1Transaction.new_for_validation
    (e1 : AssertCommit1ConnectorsE) (f1 : ConnectorF1)
    (inputs : List Input) : PreSignedTx :=
  ⟨{ kind := .assertCommit1 e1 f1,
     inputs := inputs,
     outputs := [⟨(inputs.map (fun i => i.amount)).sum, 0⟩] }, [], []⟩

/-- Source `AssertCommit1Transaction::new` takes no operator context. -/
def AssertCommit1Transaction.new (e1 : AssertCommit1ConnectorsE)
    (f1 : ConnectorF1) (inputs : List Input) : PreSignedTx :=
  AssertCommit1Transaction.new_for_validation e1 f1 inputs

/-- Modelled from the spec §4.3: `AssertCommit2Transaction` validation
constructor. -/
def AssertCommit2Transaction.new_for_validation
    (e2 : AssertCommit2ConnectorsE) (f2 : ConnectorF2)
    (inputs : List Input) : PreSignedTx :=
  ⟨{ kind := .assertCommit2 e2 f2,
     inputs := inputs,
     outputs := [⟨(inputs.map (fun i => i.amount)).sum, 0⟩] }, [], []⟩

/-- Source `AssertCommit2Transaction::new` takes no operator context. -/
def AssertCommit2Transaction.new (e2 : AssertCommit2ConnectorsE)
    (f2 : ConnectorF2) (inputs : List Input) : PreSignedTx :=
  AssertCommit2Transaction.new_for_validation e2 f2 inputs

/-- Modelled from the spec §4.3: `AssertFinalTransaction` validation
constructor (three outputs: connector 4, connector 5, connector c). -/
def AssertFinalTransaction.new_for_validation (c4 : Connector4)
    (c5 : Connector5) (cc : ConnectorC) (cd : ConnectorD)
    (cf : AssertCommitConnectorsF) (input_0 input_1 input_2 : Input) :
    PreSignedTx :=
  ⟨{ kind := .assertFinal c4 c5 cc cd cf,
     inputs := [input_0, input_1, input_2],
     outputs := List.replicate 3
       ⟨input_0.amount + input_1.amount + input_2.amount, 0⟩ }, [], []⟩

/-- Modelled from the spec §4.3: full `AssertFinalTransaction` constructor
(the body does not depend on the operator context, as the validation
constructor reproduces it without one). -/
def AssertFinalTransaction.new (context : OperatorContext) (c4 : Connector4)
    (c5 : Connector5) (cc : ConnectorC) (cd : ConnectorD)
    (cf : AssertCommitConnectorsF) (input_0 input_1 input_2 : Input) :
    PreSignedTx :=
  AssertFinalTransaction.new_for_validation c4 c5 cc cd cf input_0 input_1
    input_2

/-- Modelled from the spec §4.3: `Take2Transaction` validation constructor. -/
def Take2Transaction.new_for_validation (network : Network)
    (operator_public_key : PublicKey) (c0 : Connector0) (c4 : Connector4)
    (c5 : Connector5) (cc : ConnectorC)
    (input_0 input_1 input_2 input_3 : Input) : PreSignedTx :=
  ⟨{ kind := .take2 network operator_public_key c0 c4 c5 cc,
     inputs := [input_0, input_1, input_2, input_3],
     outputs := [⟨input_0.amount + input_1.amount + input_2.amount +
       input_3.amount, 0⟩] }, [], []⟩

/-- Modelled from the spec §4.3: full `Take2Transaction` constructor. -/
def Take2Transaction.new (context : OperatorContext) (c0 : Connector0)
    (c4 : Connector4) (c5 : Connector5) (cc : ConnectorC)
    (input_0 input_1 input_2 input_3 : Input) : PreSignedTx :=
  Take2Transaction.new_for_validation context.network
    context.operator_public_key c0 c4 c5 cc input_0 input_1 input_2 input_3

/-- Modelled from the spec §4.3: `DisproveTransaction` validation
constructor. -/
def DisproveTransaction.new_for_validation (network : Network)
    (c5 : Connector5) (cc : ConnectorC) (input_0 input_1 : Input)
    (script_index : Nat) : PreSignedTx :=
  ⟨{ kind := .disprove network c5 cc script_index,
     inputs := [input_0, input_1],
     outputs := [⟨input_0.amount + input_1.amount, 0⟩] }, [], []⟩

/-- Modelled from the spec §4.3: full `DisproveTransaction` constructor. -/
def DisproveTransaction.new (context : OperatorContext) (c5 : Connector5)
    (cc : ConnectorC) (input_0 input_1 : Input) (script_index : Nat) :
    PreSignedTx :=
  DisproveTransaction.new_for_validation context.network c5 cc input_0
    input_1 script_index

/-- Modelled from the spec §4.3: `DisproveChainTransaction` validation
constructor. -/
def DisproveChainTransaction.new_for_validation (network : Network)
    (cb : ConnectorB) (input : Input) : PreSignedTx :=
  ⟨{ kind := .disproveChain network cb,
     inputs := [input], outputs := [⟨input.amount, 0⟩] }, [], []⟩

/-- Modelled from the spec §4.3: full `DisproveChainTransaction`
constructor. -/
def DisproveChainTransaction.new (context : OperatorContext)
    (cb : ConnectorB) (input : Input) : PreSignedTx :=
  DisproveChainTransaction.new_for_validation context.network cb input

/-- Modelled from the spec: the peg-in graph (`peg_in.rs` is absent from
`src/`) as the peg-out constructor consumes it: its id and its peg-in
confirm transaction body. -/
structure PegInGraph where
  id : Nat
  peg_in_confirm_tx : TxBody
deriving Repr

/-- `PegOutEvent` from the destination chain; `tag` stands for the fields
the peg-out graph never inspects (withdrawer address, amount, tx hash,
timestamp). -/
structure PegOutEvent where
  source_outpoint : OutPoint
  operator_public_key : PublicKey
  tag : Nat
deriving DecidableEq, Repr

/-- `generate_id`: the SHA256 hex digest of the peg-in graph id
concatenated with the operator key, abstracted to an injective pairing.
(`Sha256` is consumed as a library; only determinism and injectivity of the
digest matter to the graph.) -/
def generate_id (peg_in_graph : PegInGraph)
    (operator_public_key : PublicKey) : Nat :=
  Nat.pair peg_in_graph.id operator_public_key

/-- Modelled from the spec: `GRAPH_VERSION` is a fixed string
(`graphs/base.rs` absent from `src/`). -/
def GRAPH_VERSION : String := "0.1"

/-- `generate_commitment_secrets`: the five fixed commitment secrets plus
one per Groth16 intermediate variable.  Random sampling is the injected
`draw`; `all_variables` is the assigner's enumeration
(`BridgeAssigner::all_intermediate_variable`), injected per Design Note 3
of the spec. -/
def CommitmentMessageId.generate_commitment_secrets
    (draw : CommitmentMessageId → WinternitzSecret)
    (all_variables : List (String × Nat)) :
    List (CommitmentMessageId × WinternitzSecret) :=
  [(CommitmentMessageId.PegOutTxIdSourceNetwork,
      draw CommitmentMessageId.PegOutTxIdSourceNetwork),
   (CommitmentMessageId.PegOutTxIdDestinationNetwork,
      draw CommitmentMessageId.PegOutTxIdDestinationNetwork),
   (CommitmentMessageId.StartTime, draw CommitmentMessageId.StartTime),
   (CommitmentMessageId.Superblock, draw CommitmentMessageId.Superblock),
   (CommitmentMessageId.SuperblockHash,
      draw CommitmentMessageId.SuperblockHash)] ++
    all_variables.map (fun v =>
      (CommitmentMessageId.Groth16IntermediateValues v.1 v.2,
        draw (CommitmentMessageId.Groth16IntermediateValues v.1 v.2)))

/-- Alternating split of a list, used to distribute the Groth16 commitment
keys over the two e-connector families. -/
def splitAlternating {α : Type} : List α → List α × List α
  | [] => ([], [])
  | a :: rest =>
      let p := splitAlternating rest
      (a :: p.2, p.1)

/-- Modelled from the spec: `groth16_commitment_secrets_to_public_keys`
(assert utils, absent from `src/`) derives the public key of every Groth16
intermediate-value secret and splits them over the two e-connector
families, one singleton map per connector. -/
def groth16_commitment_secrets_to_public_keys
    (commitment_secrets : List (CommitmentMessageId × WinternitzSecret)) :
    List CommitPkMap × List CommitPkMap :=
  splitAlternating
    ((commitment_secrets.filter (fun e =>
        match e.1 with
        | CommitmentMessageId.Groth16IntermediateValues _ _ => true
        | _ => false)).map
      (fun e => [(e.1, winternitz_public_key_from e.2)]))

/-- Modelled from the spec: `merge_to_connector_c_commits_public_key`
(assert utils, absent from `src/`): the union of the e₁ and e₂ commitment
public-key maps. -/
def merge_to_connector_c_commits_public_key
    (e1 e2 : List CommitPkMap) : CommitPkMap :=
  e1.flatMap id ++ e2.flatMap id

/-- `PegOutConnectors`, the bundle `create_new_connectors` returns. -/
structure PegOutConnectors where
  connector_0 : Connector0
  connector_1 : Connector1
  connector_2 : Connector2
  connector_3 : Connector3
  connector_4 : Connector4
  connector_5 : Connector5
  connector_6 : Connector6
  connector_a : ConnectorA
  connector_b : ConnectorB
  connector_c : ConnectorC
  connector_d : ConnectorD
  assert_commit_connectors_e_1 : AssertCommit1ConnectorsE
  assert_commit_connectors_e_2 : AssertCommit2ConnectorsE
  assert_commit_connectors_f : AssertCommitConnectorsF

/-- `PegOutGraph::create_new_connectors`, translated from the source. -/
def create_new_connectors (network : Network)
    (n_of_n_taproot_public_key : XOnlyPublicKey)
    (operator_taproot_public_key : XOnlyPublicKey)
    (operator_public_key : PublicKey)
    (connector_1_commitment_public_keys : CommitPkMap)
    (connector_2_commitment_public_keys : CommitPkMap)
    (connector_6_commitment_public_keys : CommitPkMap)
    (connector_e1_commitment_public_keys : List CommitPkMap)
    (connector_e2_commitment_public_keys : List CommitPkMap) :
    PegOutConnectors :=
  { connector_0 := ⟨network, n_of_n_taproot_public_key⟩
    connector_1 := Connector1.new network operator_taproot_public_key
      n_of_n_taproot_public_key connector_1_commitment_public_keys
    connector_2 := ⟨network, operator_taproot_public_key,
      n_of_n_taproot_public_key, connector_2_commitment_public_keys⟩
    connector_3 := Connector3.new network operator_public_key
    connector_4 := Connector4.new network operator_public_key
    connector_5 := ⟨network, n_of_n_taproot_public_key⟩
    connector_6 := ⟨network, operator_taproot_public_key,
      connector_6_commitment_public_keys⟩
    connector_a := ⟨network, operator_taproot_public_key,
      n_of_n_taproot_public_key⟩
    connector_b := ConnectorB.new network n_of_n_taproot_public_key
    connector_c := ⟨network, operator_taproot_public_key,
      merge_to_connector_c_commits_public_key
        connector_e1_commitment_public_keys
        connector_e2_commitment_public_keys⟩
    connector_d := ⟨network, n_of_n_taproot_public_key⟩
    assert_commit_connectors_e_1 :=
      ⟨connector_e1_commitment_public_keys.map
        (fun x => ⟨network, operator_public_key, x⟩)⟩
    assert_commit_connectors_e_2 :=
      ⟨connector_e2_commitment_public_keys.map
        (fun x => ⟨network, operator_public_key, x⟩)⟩
    assert_commit_connectors_f := ⟨⟨network, operator_public_key⟩,
      ⟨network, operator_public_key⟩⟩ }

/-- `PegOutGraph`, translated field-for-field from the source struct. -/
structure PegOutGraph where
  version : String
  network : Network
  id : Nat
  n_of_n_presigned : Bool
  n_of_n_public_key : PublicKey
  n_of_n_taproot_public_key : XOnlyPublicKey
  peg_in_graph_id : Nat
  peg_in_confirm_txid : Txid
  connector_0 : Connector0
  connector_1 : Connector1
  connector_2 : Connector2
  connector_3 : Connector3
  connector_4 : Connector4
  connector_5 : Connector5
  connector_6 : Connector6
  connector_a : ConnectorA
  connector_b : ConnectorB
  connector_c : ConnectorC
  connector_d : ConnectorD
  connector_e_1 : AssertCommit1ConnectorsE
  connector_e_2 : AssertCommit2ConnectorsE
  connector_f_1 : ConnectorF1
  connector_f_2 : ConnectorF2
  peg_out_confirm_transaction : PreSignedTx
  assert_initial_transaction : PreSignedTx
  assert_final_transaction : PreSignedTx
  challenge_transaction : PreSignedTx
  disprove_chain_transaction : PreSignedTx
  disprove_transaction : PreSignedTx
  kick_off_1_transaction : PreSignedTx
  kick_off_2_transaction : PreSignedTx
  kick_off_timeout_transaction : PreSignedTx
  start_time_transaction : PreSignedTx
  start_time_timeout_transaction : PreSignedTx
  take_1_transaction : PreSignedTx
  take_2_transaction : PreSignedTx
  operator_public_key : PublicKey
  operator_taproot_public_key : XOnlyPublicKey
  peg_out_chain_event : Option PegOutEvent
  peg_out_transaction : Option PreSignedTx

/-- `PegOutGraph::new`, translated from the source.  Random secret
generation and the assigner's variable enumeration are the injected `draw`
and `all_variables`; everything else follows the source line by line.
Returns the graph and the commitment secrets map. -/
def PegOutGraph.new (context : OperatorContext) (peg_in_graph : PegInGraph)
    (peg_out_confirm_input : Input)
    (draw : CommitmentMessageId → WinternitzSecret)
    (all_variables : List (String × Nat)) :
    PegOutGraph × List (CommitmentMessageId × WinternitzSecret) :=
  let peg_in_confirm_transaction := peg_in_graph.peg_in_confirm_tx
  let peg_in_confirm_txid := peg_in_confirm_transaction.compute_txid
  let commitment_secrets :=
    CommitmentMessageId.generate_commitment_secrets draw all_variables
  let connector_1_commitment_public_keys : CommitPkMap :=
    [(CommitmentMessageId.Superblock, winternitz_public_key_from
        ((List.lookup CommitmentMessageId.Superblock commitment_secrets).getD 0)),
     (CommitmentMessageId.SuperblockHash, winternitz_public_key_from
        ((List.lookup CommitmentMessageId.SuperblockHash commitment_secrets).getD 0))]
  let connector_2_commitment_public_keys : CommitPkMap :=
    [(CommitmentMessageId.StartTime, winternitz_public_key_from
        ((List.lookup CommitmentMessageId.StartTime commitment_secrets).getD 0))]
  let connector_6_commitment_public_keys : CommitPkMap :=
    [(CommitmentMessageId.PegOutTxIdSourceNetwork, winternitz_public_key_from
        ((List.lookup CommitmentMessageId.PegOutTxIdSourceNetwork
          commitment_secrets).getD 0)),
     (CommitmentMessageId.PegOutTxIdDestinationNetwork,
        winternitz_public_key_from
          ((List.lookup CommitmentMessageId.PegOutTxIdDestinationNetwork
            commitment_secrets).getD 0))]
  let epks := groth16_commitment_secrets_to_public_keys commitment_secrets
  let connectors := create_new_connectors context.network
    context.n_of_n_taproot_public_key context.operator_taproot_public_key
    context.operator_public_key connector_1_commitment_public_keys
    connector_2_commitment_public_keys connector_6_commitment_public_keys
    epks.1 epks.2
  let peg_out_confirm_transaction := PegOutConfirmTransaction.new context
    connectors.connector_6 peg_out_confirm_input
  let peg_out_confirm_txid := peg_out_confirm_transaction.tx.compute_txid
  let kick_off_1_transaction := KickOff1Transaction.new context
    connectors.connector_1 connectors.connector_2 connectors.connector_6
    ⟨⟨peg_out_confirm_txid, 0⟩,
      (peg_out_confirm_transaction.tx.outputs.getD 0 default).value⟩
  let kick_off_1_txid := kick_off_1_transaction.tx.compute_txid
  let start_time_transaction := StartTimeTransaction.new context
    connectors.connector_2
    ⟨⟨kick_off_1_txid, 2⟩,
      (kick_off_1_transaction.tx.outputs.getD 2 default).value⟩
  let start_time_timeout_transaction := StartTimeTimeoutTransaction.new
    context connectors.connector_1 connectors.connector_2
    ⟨⟨kick_off_1_txid, 2⟩,
      (kick_off_1_transaction.tx.outputs.getD 2 default).value⟩
    ⟨⟨kick_off_1_txid, 1⟩,
      (kick_off_1_transaction.tx.outputs.getD 1 default).value⟩
  let kick_off_2_transaction := KickOff2Transaction.new context
    connectors.connector_1
    ⟨⟨kick_off_1_txid, 1⟩,
      (kick_off_1_transaction.tx.outputs.getD 1 default).value⟩
  let kick_off_2_txid := kick_off_2_transaction.tx.compute_txid
  let kick_off_timeout_transaction := KickOffTimeoutTransaction.new context
    connectors.connector_1
    ⟨⟨kick_off_1_txid, 1⟩,
      (kick_off_1_transaction.tx.outputs.getD 1 default).value⟩
  let input_amount_crowdfunding : Amount := 100000000
  let challenge_transaction := ChallengeTransaction.new context
    connectors.connector_a
    ⟨⟨kick_off_1_txid, 0⟩,
      (kick_off_1_transaction.tx.outputs.getD 0 default).value⟩
    input_amount_crowdfunding
  let take_1_transaction := Take1Transaction.new context
    connectors.connector_0 connectors.connector_3 connectors.connector_a
    connectors.connector_b
    ⟨⟨peg_in_confirm_txid, 0⟩,
      (peg_in_confirm_transaction.outputs.getD 0 default).value⟩
    ⟨⟨kick_off_1_txid, 0⟩,
      (kick_off_1_transaction.tx.outputs.getD 0 default).value⟩
    ⟨⟨kick_off_2_txid, 0⟩,
      (kick_off_2_transaction.tx.outputs.getD 0 default).value⟩
    ⟨⟨kick_off_2_txid, 1⟩,
      (kick_off_2_transaction.tx.outputs.getD 1 default).value⟩
  let assert_initial_transaction := AssertInitialTransaction.new
    connectors.connector_b connectors.connector_d
    connectors.assert_commit_connectors_e_1
    connectors.assert_commit_connectors_e_2
    ⟨⟨kick_off_2_txid, 1⟩,
      (kick_off_2_transaction.tx.outputs.getD 1 default).value⟩
  let assert_initial_txid := assert_initial_transaction.tx.compute_txid
  let vout_base := 1
  let assert_commit1_transaction := AssertCommit1Transaction.new
    connectors.assert_commit_connectors_e_1
    connectors.assert_commit_connectors_f.connector_f_1
    ((List.range connectors.assert_commit_connectors_e_1.connectors_num).map
      (fun idx =>
        ⟨⟨assert_initial_transaction.tx.compute_txid, idx + vout_base⟩,
          (assert_initial_transaction.tx.outputs.getD (idx + vout_base)
            default).value⟩))
  let vout_base := 1 + connectors.assert_commit_connectors_e_1.connectors_num
  let assert_commit2_transaction := AssertCommit2Transaction.new
    connectors.assert_commit_connectors_e_2
    connectors.assert_commit_connectors_f.connector_f_2
    ((List.range connectors.assert_commit_connectors_e_2.connectors_num).map
      (fun idx =>
        ⟨⟨assert_initial_transaction.tx.compute_txid, idx + vout_base⟩,
          (assert_initial_transaction.tx.outputs.getD (idx + vout_base)
            default).value⟩))
  let assert_final_transaction := AssertFinalTransaction.new context
    connectors.connector_4 connectors.connector_5 connectors.connector_c
    connectors.connector_d connectors.assert_commit_connectors_f
    ⟨⟨assert_initial_txid, 0⟩,
      (assert_initial_transaction.tx.outputs.getD 0 default).value⟩
    ⟨⟨assert_commit1_transaction.tx.compute_txid, 0⟩,
      (assert_commit1_transaction.tx.outputs.getD 0 default).value⟩
    ⟨⟨assert_commit2_transaction.tx.compute_txid, 0⟩,
      (assert_commit2_transaction.tx.outputs.getD 0 default).value⟩
  let assert_final_txid := assert_final_transaction.tx.compute_txid
  let take_2_transaction := Take2Transaction.new context
    connectors.connector_0 connectors.connector_4 connectors.connector_5
    connectors.connector_c
    ⟨⟨peg_in_confirm_txid, 0⟩,
      (peg_in_confirm_transaction.outputs.getD 0 default).value⟩
    ⟨⟨assert_final_txid, 0⟩,
      (assert_final_transaction.tx.outputs.getD 0 default).value⟩
    ⟨⟨assert_final_txid, 1⟩,
      (assert_final_transaction.tx.outputs.getD 1 default).value⟩
    ⟨⟨assert_final_txid, 2⟩,
      (assert_final_transaction.tx.outputs.getD 2 default).value⟩
  let script_index := 1
  let disprove_transaction := DisproveTransaction.new context
    connectors.connector_5 connectors.connector_c
    ⟨⟨assert_final_txid, 1⟩,
      (assert_final_transaction.tx.outputs.getD 1 default).value⟩
    ⟨⟨assert_final_txid, 2⟩,
      (assert_final_transaction.tx.outputs.getD 2 default).value⟩
    script_index
  let disprove_chain_transaction := DisproveChainTransaction.new context
    connectors.connector_b
    ⟨⟨kick_off_2_txid, 1⟩,
      (kick_off_2_transaction.tx.outputs.getD 1 default).value⟩
  ({ version := GRAPH_VERSION
     network := context.network
     id := generate_id peg_in_graph context.operator_public_key
     n_of_n_presigned := false
     n_of_n_public_key := context.n_of_n_public_key
     n_of_n_taproot_public_key := context.n_of_n_taproot_public_key
     peg_in_graph_id := peg_in_graph.id
     peg_in_confirm_txid := peg_in_confirm_txid
     connector_0 := connectors.connector_0
     connector_1 := connectors.connector_1
     connector_2 := connectors.connector_2
     connector_3 := connectors.connector_3
     connector_4 := connectors.connector_4
     connector_5 := connectors.connector_5
     connector_6 := connectors.connector_6
     connector_a := connectors.connector_a
     connector_b := connectors.connector_b
     connector_c := connectors.connector_c
     connector_d := connectors.connector_d
     connector_e_1 := connectors.assert_commit_connectors_e_1
     connector_e_2 := connectors.assert_commit_connectors_e_2
     connector_f_1 := connectors.assert_commit_connectors_f.connector_f_1
     connector_f_2 := connectors.assert_commit_connectors_f.connector_f_2
     peg_out_confirm_transaction := peg_out_confirm_transaction
     assert_initial_transaction := assert_initial_transaction
     assert_final_transaction := assert_final_transaction
     challenge_transaction := challenge_transaction
     disprove_chain_transaction := disprove_chain_transaction
     disprove_transaction := disprove_transaction
     kick_off_1_transaction := kick_off_1_transaction
     kick_off_2_transaction := kick_off_2_transaction
     kick_off_timeout_transaction := kick_off_timeout_transaction
     start_time_transaction := start_time_transaction
     start_time_timeout_transaction := start_time_timeout_transaction
     take_1_transaction := take_1_transaction
     take_2_transaction := take_2_transaction
     operator_public_key := context.operator_public_key
     operator_taproot_public_key := context.operator_taproot_public_key
     peg_out_chain_event := none
     peg_out_transaction := none },
   commitment_secrets)

/-- `PegOutGraph::new_for_validation`, translated from the source: rebuild
every transaction from public material plus the `Input` tuples already
present in the graph (the source's "self-referencing" extractions). -/
def PegOutGraph.new_for_validation (g : PegOutGraph) : PegOutGraph :=
  let peg_in_confirm_txid :=
    (g.take_1_transaction.tx.inputs.getD 0 default).outpoint.txid
  let connectors := create_new_connectors g.network
    g.n_of_n_taproot_public_key g.operator_taproot_public_key
    g.operator_public_key g.connector_1.commitment_public_keys
    g.connector_2.commitment_public_keys
    g.connector_6.commitment_public_keys
    g.connector_e_1.commitment_public_keys
    g.connector_e_2.commitment_public_keys
  let peg_out_confirm_transaction :=
    PegOutConfirmTransaction.new_for_validation g.network
      g.operator_public_key connectors.connector_6
      ⟨(g.peg_out_confirm_transaction.tx.inputs.getD 0 default).outpoint,
        g.peg_out_confirm_transaction.prev_out_value 0⟩
  let kick_off_1_transaction := KickOff1Transaction.new_for_validation
    g.network g.operator_taproot_public_key g.n_of_n_taproot_public_key
    connectors.connector_1 connectors.connector_2 connectors.connector_6
    ⟨(g.kick_off_1_transaction.tx.inputs.getD 0 default).outpoint,
      g.kick_off_1_transaction.prev_out_value 0⟩
  let kick_off_1_txid := kick_off_1_transaction.tx.compute_txid
  let start_time_transaction := StartTimeTransaction.new_for_validation
    g.network g.operator_public_key connectors.connector_2
    ⟨⟨kick_off_1_txid, 2⟩,
      (kick_off_1_transaction.tx.outputs.getD 2 default).value⟩
  let start_time_timeout_transaction :=
    StartTimeTimeoutTransaction.new_for_validation g.network
      connectors.connector_1 connectors.connector_2
      ⟨⟨kick_off_1_txid, 2⟩,
        (kick_off_1_transaction.tx.outputs.getD 2 default).value⟩
      ⟨⟨kick_off_1_txid, 1⟩,
        (kick_off_1_transaction.tx.outputs.getD 1 default).value⟩
  let kick_off_2_transaction := KickOff2Transaction.new_for_validation
    g.network g.operator_public_key g.n_of_n_taproot_public_key
    connectors.connector_1
    ⟨⟨kick_off_1_txid, 1⟩,
      (kick_off_1_transaction.tx.outputs.getD 1 default).value⟩
  let kick_off_2_txid := kick_off_2_transaction.tx.compute_txid
  let kick_off_timeout_transaction :=
    KickOffTimeoutTransaction.new_for_validation g.network
      connectors.connector_1
      ⟨⟨kick_off_1_txid, 1⟩,
        (kick_off_1_transaction.tx.outputs.getD 1 default).value⟩
  let input_amount_crowdfunding : Amount := 100000000
  let challenge_transaction := ChallengeTransaction.new_for_validation
    g.network g.operator_public_key g.connector_a
    ⟨⟨kick_off_1_txid, 0⟩,
      (kick_off_1_transaction.tx.outputs.getD 0 default).value⟩
    input_amount_crowdfunding
  let take_1_transaction := Take1Transaction.new_for_validation g.network
    g.operator_public_key connectors.connector_0 connectors.connector_3
    connectors.connector_a connectors.connector_b
    ⟨⟨peg_in_confirm_txid, 0⟩, g.take_1_transaction.prev_out_value 0⟩
    ⟨⟨kick_off_1_txid, 0⟩,
      (kick_off_1_transaction.tx.outputs.getD 0 default).value⟩
    ⟨⟨kick_off_2_txid, 0⟩,
      (kick_off_2_transaction.tx.outputs.getD 0 default).value⟩
    ⟨⟨kick_off_2_txid, 1⟩,
      (kick_off_2_transaction.tx.outputs.getD 1 default).value⟩
  let assert_initial_transaction :=
    AssertInitialTransaction.new_for_validation connectors.connector_b
      connectors.connector_d connectors.assert_commit_connectors_e_1
      connectors.assert_commit_connectors_e_2
      ⟨⟨kick_off_2_txid, 1⟩,
        (kick_off_2_transaction.tx.outputs.getD 1 default).value⟩
  let assert_initial_txid := assert_initial_transaction.tx.compute_txid
  let vout_base := 1
  let assert_commit_1_transaction :=
    AssertCommit1Transaction.new_for_validation
      connectors.assert_commit_connectors_e_1
      connectors.assert_commit_connectors_f.connector_f_1
      ((List.range connectors.assert_commit_connectors_e_1.connectors_num).map
        (fun idx =>
          ⟨⟨assert_initial_transaction.tx.compute_txid, idx + vout_base⟩,
            (assert_initial_transaction.tx.outputs.getD (idx + vout_base)
              default).value⟩))
  let vout_base := 1 + connectors.assert_commit_connectors_e_1.connectors_num
  let assert_commit_2_transaction :=
    AssertCommit2Transaction.new_for_validation
      connectors.assert_commit_connectors_e_2
      connectors.assert_commit_connectors_f.connector_f_2
      ((List.range connectors.assert_commit_connectors_e_2.connectors_num).map
        (fun idx =>
          ⟨⟨assert_initial_transaction.tx.compute_txid, idx + vout_base⟩,
            (assert_initial_transaction.tx.outputs.getD (idx + vout_base)
              default).value⟩))
  let assert_final_transaction := AssertFinalTransaction.new_for_validation
    connectors.connector_4 connectors.connector_5 connectors.connector_c
    connectors.connector_d connectors.assert_commit_connectors_f
    ⟨⟨assert_initial_txid, 0⟩,
      (assert_initial_transaction.tx.outputs.getD 0 default).value⟩
    ⟨⟨assert_commit_1_transaction.tx.compute_txid, 0⟩,
      (assert_commit_1_transaction.tx.outputs.getD 0 default).value⟩
    ⟨⟨assert_commit_2_transaction.tx.compute_txid, 0⟩,
      (assert_commit_2_transaction.tx.outputs.getD 0 default).value⟩
  let assert_final_txid := assert_final_transaction.tx.compute_txid
  let take_2_transaction := Take2Transaction.new_for_validation g.network
    g.operator_public_key connectors.connector_0 connectors.connector_4
    connectors.connector_5 connectors.connector_c
    ⟨⟨peg_in_confirm_txid, 0⟩, g.take_2_transaction.prev_out_value 0⟩
    ⟨⟨assert_final_txid, 0⟩,
      (assert_final_transaction.tx.outputs.getD 0 default).value⟩
    ⟨⟨assert_final_txid, 1⟩,
      (assert_final_transaction.tx.outputs.getD 1 default).value⟩
    ⟨⟨assert_final_txid, 2⟩,
      (assert_final_transaction.tx.outputs.getD 2 default).value⟩
  let script_index := 1
  let disprove_transaction := DisproveTransaction.new_for_validation
    g.network g.connector_5 g.connector_c
    ⟨⟨assert_final_txid, 1⟩,
      (assert_final_transaction.tx.outputs.getD 1 default).value⟩
    ⟨⟨assert_final_txid, 2⟩,
      (assert_final_transaction.tx.outputs.getD 2 default).value⟩
    script_index
  let disprove_chain_transaction :=
    DisproveChainTransaction.new_for_validation g.network g.connector_b
      ⟨⟨kick_off_2_txid, 1⟩,
        (kick_off_2_transaction.tx.outputs.getD 1 default).value⟩
  { version := GRAPH_VERSION
    network := g.network
    id := g.id
    n_of_n_presigned := false
    n_of_n_public_key := g.n_of_n_public_key
    n_of_n_taproot_public_key := g.n_of_n_taproot_public_key
    peg_in_graph_id := g.peg_in_graph_id
    peg_in_confirm_txid := peg_in_confirm_txid
    connector_0 := connectors.connector_0
    connector_1 := connectors.connector_1
    connector_2 := connectors.connector_2
    connector_3 := connectors.connector_3
    connector_4 := connectors.connector_4
    connector_5 := connectors.connector_5
    connector_6 := connectors.connector_6
    connector_a := connectors.connector_a
    connector_b := connectors.connector_b
    connector_c := connectors.connector_c
    connector_d := connectors.connector_d
    connector_e_1 := connectors.assert_commit_connectors_e_1
    connector_e_2 := connectors.assert_commit_connectors_e_2
    connector_f_1 := connectors.assert_commit_connectors_f.connector_f_1
    connector_f_2 := connectors.assert_commit_connectors_f.connector_f_2
    peg_out_confirm_transaction := peg_out_confirm_transaction
    assert_initial_transaction := assert_initial_transaction
    assert_final_transaction := assert_final_transaction
    challenge_transaction := challenge_transaction
    disprove_chain_transaction := disprove_chain_transaction
    disprove_transaction := disprove_transaction
    kick_off_1_transaction := kick_off_1_transaction
    kick_off_2_transaction := kick_off_2_transaction
    kick_off_timeout_transaction := kick_off_timeout_transaction
    start_time_transaction := start_time_transaction
    start_time_timeout_transaction := start_time_timeout_transaction
    take_1_transaction := take_1_transaction
    take_2_transaction := take_2_transaction
    operator_public_key := g.operator_public_key
    operator_taproot_public_key := g.operator_taproot_public_key
    peg_out_chain_event := none
    peg_out_transaction := none }

/-- `PegOutGraph::all_presigned_txs`, translated from the source: the
transactions iterated by the pre-sign machinery, in source order. -/
def PegOutGraph.all_presigned_txs (g : PegOutGraph) : List PreSignedTx :=
  [g.assert_initial_transaction,
   g.assert_final_transaction,
   g.disprove_chain_transaction,
   g.disprove_transaction,
   g.kick_off_timeout_transaction,
   g.start_time_timeout_transaction,
   g.take_1_transaction,
   g.take_2_transaction]

/-- `PegOutGraph::has_all_nonces_of`, translated from the source. -/
def PegOutGraph.has_all_nonces_of (g : PegOutGraph)
    (context : VerifierContext) : Bool :=
  g.all_presigned_txs.all (fun x => x.has_nonces_for context.verifier_public_key)

/-- `PegOutGraph::has_all_nonces`, translated from the source. -/
def PegOutGraph.has_all_nonces (g : PegOutGraph)
    (verifier_pubkeys : List PublicKey) : Bool :=
  g.all_presigned_txs.all (fun x => x.has_all_nonces verifier_pubkeys)

/-- `PegOutGraph::has_all_signatures_of`, translated from the source. -/
def PegOutGraph.has_all_signatures_of (g : PegOutGraph)
    (context : VerifierContext) : Bool :=
  g.all_presigned_txs.all
    (fun x => x.has_signatures_for context.verifier_public_key)

/-- `PegOutGraph::has_all_signatures`, translated from the source. -/
def PegOutGraph.has_all_signatures (g : PegOutGraph)
    (verifier_pubkeys : List PublicKey) : Bool :=
  g.all_presigned_txs.all (fun x => x.has_all_signatures verifier_pubkeys)

/-- `push_verifier_nonces`, translated from the source: push nonces on
exactly the transactions of `all_presigned_txs` (via
`all_presigned_txs_mut`, the same eight fields) and return the secret
nonces per txid.  Nonce randomness is the injected `nf`, one sampler per
transaction keyed by its txid. -/
def PegOutGraph.push_verifier_nonces (g : PegOutGraph)
    (verifier_context : VerifierContext) (nf : Txid → Nat → Nat) :
    PegOutGraph × List (Txid × List (Nat × Nat)) :=
  let step := fun (t : PreSignedTx) =>
    t.push_nonces verifier_context (nf t.tx.compute_txid)
  ({ g with
      assert_initial_transaction := (step g.assert_initial_transaction).1
      assert_final_transaction := (step g.assert_final_transaction).1
      disprove_chain_transaction := (step g.disprove_chain_transaction).1
      disprove_transaction := (step g.disprove_transaction).1
      kick_off_timeout_transaction := (step g.kick_off_timeout_transaction).1
      start_time_timeout_transaction :=
        (step g.start_time_timeout_transaction).1
      take_1_transaction := (step g.take_1_transaction).1
      take_2_transaction := (step g.take_2_transaction).1 },
   g.all_presigned_txs.map
     (fun t => (t.tx.compute_txid, (step t).2)))

/-- `verifier_sign`, translated from the source: pre-sign each of the eight
transactions with the secret nonces looked up by txid, then set
`n_of_n_presigned` unconditionally (the source line 406 carries a TODO
admitting the flag should only be set after collecting all n-of-n
signatures).  The secret-nonce map is a total function, standing for the
`HashMap` indexing of the source. -/
def PegOutGraph.verifier_sign (g : PegOutGraph)
    (verifier_context : VerifierContext)
    (secret_nonces : Txid → List (Nat × Nat)) : PegOutGraph :=
  { g with
      assert_initial_transaction := g.assert_initial_transaction.pre_sign
        verifier_context
        (secret_nonces g.assert_initial_transaction.tx.compute_txid)
      assert_final_transaction := g.assert_final_transaction.pre_sign
        verifier_context
        (secret_nonces g.assert_final_transaction.tx.compute_txid)
      disprove_chain_transaction := g.disprove_chain_transaction.pre_sign
        verifier_context
        (secret_nonces g.disprove_chain_transaction.tx.compute_txid)
      disprove_transaction := g.disprove_transaction.pre_sign
        verifier_context
        (secret_nonces g.disprove_transaction.tx.compute_txid)
      kick_off_timeout_transaction := g.kick_off_timeout_transaction.pre_sign
        verifier_context
        (secret_nonces g.kick_off_timeout_transaction.tx.compute_txid)
      start_time_timeout_transaction :=
        g.start_time_timeout_transaction.pre_sign verifier_context
          (secret_nonces g.start_time_timeout_transaction.tx.compute_txid)
      take_1_transaction := g.take_1_transaction.pre_sign verifier_context
        (secret_nonces g.take_1_transaction.tx.compute_txid)
      take_2_transaction := g.take_2_transaction.pre_sign verifier_context
        (secret_nonces g.take_2_transaction.tx.compute_txid)
      n_of_n_presigned := true }

/-- Modelled from the spec §6: `validate_transaction` byte-compares a
transaction against its reconstruction (`transactions/base.rs` absent from
`src/`). -/
def validate_transaction (t1 t2 : TxBody) : Bool :=
  decide (t1 = t2)

/-- Modelled from the spec: `verify_public_nonces_for_tx` checks every
stored public nonce of a transaction against its accompanying signature;
the per-nonce check itself is the injected `nok` (`transactions/base.rs`
absent from `src/`). -/
def verify_public_nonces_for_tx (nok : Nat × PublicKey × Nat → Bool)
    (t : PreSignedTx) : Bool :=
  t.pub_nonces.all nok

/-- `PegOutGraph::validate`, translated from the source: rebuild via
`new_for_validation`, byte-compare the thirteen transactions, then verify
the public nonces of the nine nonce-carrying transactions (the source list
includes `start_time`). -/
def PegOutGraph.validate (g : PegOutGraph)
    (nok : Nat × PublicKey × Nat → Bool) : Bool :=
  let peg_out_graph := g.new_for_validation
  validate_transaction g.assert_initial_transaction.tx
      peg_out_graph.assert_initial_transaction.tx &&
  validate_transaction g.assert_final_transaction.tx
      peg_out_graph.assert_final_transaction.tx &&
  validate_transaction g.challenge_transaction.tx
      peg_out_graph.challenge_transaction.tx &&
  validate_transaction g.disprove_chain_transaction.tx
      peg_out_graph.disprove_chain_transaction.tx &&
  validate_transaction g.disprove_transaction.tx
      peg_out_graph.disprove_transaction.tx &&
  validate_transaction g.peg_out_confirm_transaction.tx
      peg_out_graph.peg_out_confirm_transaction.tx &&
  validate_transaction g.kick_off_1_transaction.tx
      peg_out_graph.kick_off_1_transaction.tx &&
  validate_transaction g.kick_off_2_transaction.tx
      peg_out_graph.kick_off_2_transaction.tx &&
  validate_transaction g.kick_off_timeout_transaction.tx
      peg_out_graph.kick_off_timeout_transaction.tx &&
  validate_transaction g.start_time_transaction.tx
      peg_out_graph.start_time_transaction.tx &&
  validate_transaction g.start_time_timeout_transaction.tx
      peg_out_graph.start_time_timeout_transaction.tx &&
  validate_transaction g.take_1_transaction.tx
      peg_out_graph.take_1_transaction.tx &&
  validate_transaction g.take_2_transaction.tx
      peg_out_graph.take_2_transaction.tx &&
  verify_public_nonces_for_tx nok g.assert_initial_transaction &&
  verify_public_nonces_for_tx nok g.assert_final_transaction &&
  verify_public_nonces_for_tx nok g.disprove_chain_transaction &&
  verify_public_nonces_for_tx nok g.disprove_transaction &&
  verify_public_nonces_for_tx nok g.kick_off_timeout_transaction &&
  verify_public_nonces_for_tx nok g.start_time_transaction &&
  verify_public_nonces_for_tx nok g.start_time_timeout_transaction &&
  verify_public_nonces_for_tx nok g.take_1_transaction &&
  verify_public_nonces_for_tx nok g.take_2_transaction

/-- `PegOutGraph::is_peg_out_initiated`, translated from the source. -/
def PegOutGraph.is_peg_out_initiated (g : PegOutGraph) : Bool :=
  g.peg_out_chain_event.isSome

/-- `Vec::swap_remove(i)`: replace element `i` with the last element and
pop; `none` models the index-out-of-bounds panic. -/
def swapRemove {α : Type} (l : List α) (i : Nat) : Option (List α) :=
  match l.getLast? with
  | none => none
  | some last => if i < l.length then some ((l.set i last).dropLast) else none

/-- `PegOutGraph::match_and_set_peg_out_event`, translated from the source:
collect the indices of matching events, `swap_remove` each collected index
in order, then dispatch on the number of matches.  The result is `none`
when a `swap_remove` panics, otherwise the source's
`Result<Option<PegOutEvent>, String>` plus the mutated event list and
graph. -/
def PegOutGraph.match_and_set_peg_out_event (g : PegOutGraph)
    (all_events : List PegOutEvent) :
    Option (Except String (Option PegOutEvent) × List PegOutEvent ×
      PegOutGraph) :=
  let hits := (all_events.enum).filter (fun p =>
    g.peg_in_confirm_txid == p.2.source_outpoint.txid &&
    g.operator_public_key == p.2.operator_public_key)
  let events := hits.map (fun p => p.2)
  let ids := hits.map (fun p => p.1)
  match ids.foldlM (fun acc x => swapRemove acc x) all_events with
  | none => none
  | some remaining =>
    match events with
    | [] => some (Except.ok none, remaining, g)
    | [e] => some (Except.ok (some e), remaining,
        { g with peg_out_chain_event := some e })
    | _ => some (Except.error "Event from L2 chain is not unique",
        remaining, g)

/-- `TxStatus` as the chain client reports it. -/
structure TxStatus where
  confirmed : Bool
  block_height : Option Nat
deriving DecidableEq, Repr

/-- The chain client, as a pure oracle: `tx_status(txid)`, with `none`
modelling a client error (`Err`). -/
abbrev ChainOracle := Txid → Option TxStatus

/-- `status.is_ok_and(|status| status.confirmed)`. -/
def isOkAndConfirmed (r : Option TxStatus) : Bool :=
  match r with
  | some s => s.confirmed
  | none => false

/-- `status.is_ok_and(|status| !status.confirmed)`. -/
def isOkAndNotConfirmed (r : Option TxStatus) : Bool :=
  match r with
  | some s => !s.confirmed
  | none => false

/-- `status.as_ref().unwrap().block_height.is_some_and(p)`.  Every source
occurrence is guarded by a preceding `is_ok_and` on the same status, so the
unwrap cannot panic there; the `none` branch is unreachable under those
guards. -/
def blockHeightIsSomeAnd (r : Option TxStatus) (p : Nat → Bool) : Bool :=
  match r with
  | some s =>
      match s.block_height with
      | some h => p h
      | none => false
  | none => false

/-- The fourteen statuses `get_peg_out_statuses` fetches. -/
structure PegOutStatuses where
  assert_initial : Option TxStatus
  assert_final : Option TxStatus
  challenge : Option TxStatus
  disprove_chain : Option TxStatus
  disprove : Option TxStatus
  peg_out_confirm : Option TxStatus
  kick_off_1 : Option TxStatus
  kick_off_2 : Option TxStatus
  kick_off_timeout : Option TxStatus
  peg_out : Option (Option TxStatus)
  start_time_timeout : Option TxStatus
  start_time : Option TxStatus
  take_1 : Option TxStatus
  take_2 : Option TxStatus

/-- `PegOutGraph::get_peg_out_statuses`, translated from the source: query
the chain for each graph transaction; `peg_out` is only queried when the
optional peg-out transaction exists. -/
def PegOutGraph.get_peg_out_statuses (g : PegOutGraph)
    (chain : ChainOracle) : PegOutStatuses :=
  { assert_initial := chain g.assert_initial_transaction.tx.compute_txid
    assert_final := chain g.assert_final_transaction.tx.compute_txid
    challenge := chain g.challenge_transaction.tx.compute_txid
    disprove_chain := chain g.disprove_chain_transaction.tx.compute_txid
    disprove := chain g.disprove_transaction.tx.compute_txid
    peg_out_confirm := chain g.peg_out_confirm_transaction.tx.compute_txid
    kick_off_1 := chain g.kick_off_1_transaction.tx.compute_txid
    kick_off_2 := chain g.kick_off_2_transaction.tx.compute_txid
    kick_off_timeout := chain g.kick_off_timeout_transaction.tx.compute_txid
    peg_out := g.peg_out_transaction.map (fun t => chain t.tx.compute_txid)
    start_time_timeout :=
      chain g.start_time_timeout_transaction.tx.compute_txid
    start_time := chain g.start_time_transaction.tx.compute_txid
    take_1 := chain g.take_1_transaction.tx.compute_txid
    take_2 := chain g.take_2_transaction.tx.compute_txid }

/-- `PegOutVerifierStatus`, translated from the source. -/
inductive PegOutVerifierStatus where
  | PegOutPresign
  | PegOutComplete
  | PegOutWait
  | PegOutChallengeAvailable
  | PegOutStartTimeTimeoutAvailable
  | PegOutKickOffTimeoutAvailable
  | PegOutDisproveChainAvailable
  | PegOutDisproveAvailable
  | PegOutFailed
deriving DecidableEq, Repr

/-- `PegOutOperatorStatus`, translated from the source. -/
inductive PegOutOperatorStatus where
  | PegOutWait
  | PegOutComplete
  | PegOutFailed
  | PegOutStartPegOut
  | PegOutPegOutConfirmAvailable
  | PegOutKickOff1Available
  | PegOutStartTimeAvailable
  | PegOutKickOff2Available
  | PegOutAssertAvailable
  | PegOutTake1Available
  | PegOutTake2Available
deriving DecidableEq, Repr

/-- `PegOutGraph::verifier_status`, translated branch-for-branch from the
source (the chain client and `get_block_height` are the injected oracle and
`blockchain_height`). -/
def PegOutGraph.verifier_status (g : PegOutGraph) (chain : ChainOracle)
    (blockchain_height : Nat) : PegOutVerifierStatus :=
  if g.n_of_n_presigned then
    let st := g.get_peg_out_statuses chain
    if isOkAndConfirmed st.kick_off_2 then
      if isOkAndConfirmed st.take_1 || isOkAndConfirmed st.take_2 then
        PegOutVerifierStatus.PegOutComplete
      else if isOkAndConfirmed st.disprove ||
          isOkAndConfirmed st.disprove_chain then
        PegOutVerifierStatus.PegOutFailed
      else if isOkAndConfirmed st.assert_final then
        PegOutVerifierStatus.PegOutDisproveAvailable
      else
        PegOutVerifierStatus.PegOutDisproveChainAvailable
    else if isOkAndConfirmed st.kick_off_1 then
      if isOkAndConfirmed st.start_time_timeout ||
          isOkAndConfirmed st.kick_off_timeout then
        PegOutVerifierStatus.PegOutFailed
      else if isOkAndNotConfirmed st.start_time then
        if blockHeightIsSomeAnd st.kick_off_1 (fun block_height =>
            decide (block_height + g.connector_1.num_blocks_timelock_leaf_2 >
              blockchain_height)) then
          PegOutVerifierStatus.PegOutStartTimeTimeoutAvailable
        else
          PegOutVerifierStatus.PegOutWait
      else if blockHeightIsSomeAnd st.kick_off_1 (fun block_height =>
          decide (block_height + g.connector_1.num_blocks_timelock_leaf_1 >
            blockchain_height)) then
        PegOutVerifierStatus.PegOutKickOffTimeoutAvailable
      else if isOkAndNotConfirmed st.challenge then
        PegOutVerifierStatus.PegOutChallengeAvailable
      else
        PegOutVerifierStatus.PegOutWait
    else
      PegOutVerifierStatus.PegOutWait
  else
    PegOutVerifierStatus.PegOutPresign

/-- `PegOutGraph::operator_status`, translated branch-for-branch from the
source.  The result is `none` exactly when the source panics: the
`peg_out_status.is_some_and(|status| status.unwrap().confirmed)` line
unwraps a client error when the peg-out transaction exists but its status
query failed. -/
def PegOutGraph.operator_status (g : PegOutGraph) (chain : ChainOracle)
    (blockchain_height : Nat) : Option PegOutOperatorStatus :=
  if g.n_of_n_presigned && g.is_peg_out_initiated then
    let st := g.get_peg_out_statuses chain
    match st.peg_out with
    | some none => none
    | some (some peg_out_st) =>
      if peg_out_st.confirmed then
        some (
          if isOkAndConfirmed st.kick_off_2 then
            if isOkAndConfirmed st.take_1 || isOkAndConfirmed st.take_2 then
              PegOutOperatorStatus.PegOutComplete
            else if isOkAndConfirmed st.disprove_chain ||
                isOkAndConfirmed st.disprove then
              PegOutOperatorStatus.PegOutFailed
            else if isOkAndConfirmed st.challenge then
              if isOkAndConfirmed st.assert_final then
                if blockHeightIsSomeAnd st.assert_final (fun block_height =>
                    decide (block_height + g.connector_4.num_blocks_timelock ≤
                      blockchain_height)) then
                  PegOutOperatorStatus.PegOutTake2Available
                else
                  PegOutOperatorStatus.PegOutWait
              else if blockHeightIsSomeAnd st.kick_off_2 (fun block_height =>
                  decide (block_height + g.connector_b.num_blocks_timelock_1 ≤
                    blockchain_height)) then
                PegOutOperatorStatus.PegOutAssertAvailable
              else
                PegOutOperatorStatus.PegOutWait
            else if blockHeightIsSomeAnd st.kick_off_2 (fun block_height =>
                decide (block_height + g.connector_3.num_blocks_timelock ≤
                  blockchain_height)) then
              PegOutOperatorStatus.PegOutTake1Available
            else
              PegOutOperatorStatus.PegOutWait
          else if isOkAndConfirmed st.kick_off_1 then
            if isOkAndConfirmed st.start_time_timeout ||
                isOkAndConfirmed st.kick_off_timeout then
              PegOutOperatorStatus.PegOutFailed
            else if isOkAndConfirmed st.start_time then
              if blockHeightIsSomeAnd st.kick_off_1 (fun block_height =>
                  decide (block_height +
                    g.connector_1.num_blocks_timelock_leaf_0 ≤
                    blockchain_height)) then
                PegOutOperatorStatus.PegOutKickOff2Available
              else
                PegOutOperatorStatus.PegOutWait
            else
              PegOutOperatorStatus.PegOutStartTimeAvailable
          else if isOkAndConfirmed st.peg_out_confirm then
            PegOutOperatorStatus.PegOutKickOff1Available
          else
            PegOutOperatorStatus.PegOutPegOutConfirmAvailable)
      else
        some PegOutOperatorStatus.PegOutStartPegOut
    | none => some PegOutOperatorStatus.PegOutStartPegOut
  else
    some PegOutOperatorStatus.PegOutWait

/-- Modelled from the spec §4.6: `add_output` appends the reimbursement
output paying the given script (the output's value computation is
abstracted). -/
def PreSignedTx.add_output (t : PreSignedTx)
    (output_script_pubkey : Nat) : PreSignedTx :=
  { t with tx := { t.tx with
      outputs := t.tx.outputs ++ [⟨0, output_script_pubkey⟩] } }

/-- Modelled from the spec §4.6: `finalize` attaches witness data and
serializes for broadcast; the broadcast bytes carry exactly the body's
inputs and outputs. -/
def PreSignedTx.finalize (t : PreSignedTx) : TxBody :=
  t.tx

/-- The witness-completion and broadcast steps of
`PegOutGraph::kick_off_timeout`, translated from the source in source
order: the transaction is finalized first, the output is added to the
stored transaction afterwards, and the earlier finalized bytes are
broadcast.  The on-chain precondition guards (idempotence and timelock
checks) precede this block and do not touch the transaction.  Returns the
broadcast bytes and the mutated graph. -/
def PegOutGraph.kick_off_timeout (g : PegOutGraph)
    (output_script_pubkey : Nat) : TxBody × PegOutGraph :=
  let kick_off_timeout_tx := g.kick_off_timeout_transaction.finalize
  let g2 := { g with
    kick_off_timeout_transaction :=
      g.kick_off_timeout_transaction.add_output output_script_pubkey }
  (kick_off_timeout_tx, g2)

/-- The witness-completion and broadcast steps of
`PegOutGraph::start_time_timeout`, translated from the source: the output
is added before `finalize`, and the finalized bytes are broadcast. -/
def PegOutGraph.start_time_timeout (g : PegOutGraph)
    (output_script_pubkey : Nat) : TxBody × PegOutGraph :=
  let g2 := { g with
    start_time_timeout_transaction :=
      g.start_time_timeout_transaction.add_output output_script_pubkey }
  (g2.start_time_timeout_transaction.finalize, g2)

/-- The witness-completion and broadcast steps of
`PegOutGraph::disprove_chain`, translated from the source: the output is
added before `finalize`, and the finalized bytes are broadcast. -/
def PegOutGraph.disprove_chain (g : PegOutGraph)
    (output_script_pubkey : Nat) : TxBody × PegOutGraph :=
  let g2 := { g with
    disprove_chain_transaction :=
      g.disprove_chain_transaction.add_output output_script_pubkey }
  (g2.disprove_chain_transaction.finalize, g2)

/-- A concrete operator context used as evaluation input: network regtest,
operator keys 10 and 11, n-of-n keys 20 and 21. -/
def demoContext : OperatorContext := ⟨Network.regtest, 10, 11, 20, 21⟩

/-- A concrete peg-in graph with one confirmed peg-in output. -/
def demoPegIn : PegInGraph := ⟨5, ⟨TxKind.external 99, [], [⟨100000, 0⟩]⟩⟩

/-- A concrete funding input for the peg-out confirm transaction. -/
def demoInput : Input := ⟨⟨[0, 77], 0⟩, 50000⟩

/-- A concrete secret sampler. -/
def demoDraw : CommitmentMessageId → WinternitzSecret := fun _ => 3

/-- A concrete peg-out graph freshly constructed by `PegOutGraph::new`
(no nonces, no signatures, no peg-out event). -/
def demoGraph : PegOutGraph :=
  (PegOutGraph.new demoContext demoPegIn demoInput demoDraw []).1

/-- A single verifier, public key 31, in the declared two-verifier n-of-n
set `[31, 32]`. -/
def demoVerifier : VerifierContext := ⟨Network.regtest, 31, 20, 21⟩

/-- Secret nonces handed to `verifier_sign` (their bytes are irrelevant to
the stored-state claims). -/
def demoSecretNonces : Txid → List (Nat × Nat) := fun _ => []

/-- A chain oracle reporting kick-off 1 confirmed at height 100 and every
other transaction unconfirmed. -/
def demoChain : ChainOracle := fun t =>
  if t = demoGraph.kick_off_1_transaction.tx.compute_txid then
    some ⟨true, some 100⟩
  else
    some ⟨false, none⟩

/-- The demo graph with `n_of_n_presigned` set, as the verifier projection
requires past the presign gate. -/
def demoGraph4 : PegOutGraph := { demoGraph with n_of_n_presigned := true }

/-- A destination-chain peg-out event matching the demo graph's peg-in
confirm txid and operator key. -/
def demoEvent : PegOutEvent :=
  ⟨⟨demoPegIn.peg_in_confirm_tx.compute_txid, 0⟩, 10, 0⟩

/-- A second matching event, distinct from `demoEvent` only in its tag. -/
def demoEvent2 : PegOutEvent :=
  ⟨⟨demoPegIn.peg_in_confirm_tx.compute_txid, 0⟩, 10, 2⟩

/-- The demo graph pre-signed and carrying a matched peg-out event but no
peg-out transaction yet. -/
def demoGraph7 : PegOutGraph :=
  { demoGraph with
      n_of_n_presigned := true
      peg_out_chain_event := some demoEvent }

/-- Rebuilding the connectors from the commitment keys stored in a
connector bundle reproduces the bundle. -/
theorem create_new_connectors_roundtrip (net : Network)
    (nn op : XOnlyPublicKey) (opk : PublicKey) (c1 c2 c6 : CommitPkMap)
    (e1 e2 : List CommitPkMap) :
    create_new_connectors net nn op opk c1 c2 c6
      ((create_new_connectors net nn op opk c1 c2 c6 e1
        e2).assert_commit_connectors_e_1.commitment_public_keys)
      ((create_new_connectors net nn op opk c1 c2 c6 e1
        e2).assert_commit_connectors_e_2.commitment_public_keys) =
      create_new_connectors net nn op opk c1 c2 c6 e1 e2 := by
  simp [create_new_connectors, AssertCommit1ConnectorsE.commitment_public_keys,
    AssertCommit2ConnectorsE.commitment_public_keys, List.map_map,
    Function.comp_def, List.map_id]

/-- The validation reconstruction of a graph built by the full constructors
is that graph itself: every connector, every transaction body and every
identity field is reproduced. -/
theorem new_for_validation_new (ctx : OperatorContext) (pegin : PegInGraph)
    (inp : Input) (draw : CommitmentMessageId → WinternitzSecret)
    (vars : List (String × Nat)) :
    (PegOutGraph.new ctx pegin inp draw vars).1.new_for_validation =
      (PegOutGraph.new ctx pegin inp draw vars).1 := by
  simp [PegOutGraph.new, PegOutGraph.new_for_validation, create_new_connectors,
    Connector1.new, Connector3.new, Connector4.new, ConnectorB.new,
    AssertCommit1ConnectorsE.commitment_public_keys,
    AssertCommit2ConnectorsE.commitment_public_keys,
    AssertCommit1ConnectorsE.connectors_num,
    AssertCommit2ConnectorsE.connectors_num,
    PegOutConfirmTransaction.new, PegOutConfirmTransaction.new_for_validation,
    KickOff1Transaction.new, KickOff1Transaction.new_for_validation,
    StartTimeTransaction.new, StartTimeTransaction.new_for_validation,
    StartTimeTimeoutTransaction.new,
    StartTimeTimeoutTransaction.new_for_validation,
    KickOff2Transaction.new, KickOff2Transaction.new_for_validation,
    KickOffTimeoutTransaction.new,
    KickOffTimeoutTransaction.new_for_validation,
    ChallengeTransaction.new, ChallengeTransaction.new_for_validation,
    Take1Transaction.new, Take1Transaction.new_for_validation,
    AssertInitialTransaction.new, AssertInitialTransaction.new_for_validation,
    AssertCommit1Transaction.new, AssertCommit1Transaction.new_for_validation,
    AssertCommit2Transaction.new, AssertCommit2Transaction.new_for_validation,
    AssertFinalTransaction.new, AssertFinalTransaction.new_for_validation,
    Take2Transaction.new, Take2Transaction.new_for_validation,
    DisproveTransaction.new, DisproveTransaction.new_for_validation,
    DisproveChainTransaction.new, DisproveChainTransaction.new_for_validation,
    PreSignedTx.prev_out_value, List.map_map, Function.comp_def, List.map_id]

/-- After `push_nonces` by a verifier, that verifier's nonces are complete
for the transaction. -/
theorem push_nonces_has_nonces_for (t : PreSignedTx) (ctx : VerifierContext)
    (nf : Nat → Nat) :
    ((t.push_nonces ctx nf).1).has_nonces_for ctx.verifier_public_key = true := by
  apply List.all_eq_true.mpr
  intro i hi
  apply List.any_eq_true.mpr
  refine ⟨(i, ctx.verifier_public_key, nf i), ?_, by simp⟩
  exact List.mem_append_right _ (List.mem_map.mpr ⟨i, hi, rfl⟩)

/-- After `pre_sign` by a verifier, that verifier's partial signatures are
complete for the transaction. -/
theorem pre_sign_has_signatures_for (t : PreSignedTx) (ctx : VerifierContext)
    (sn : List (Nat × Nat)) :
    (t.pre_sign ctx sn).has_signatures_for ctx.verifier_public_key = true := by
  apply List.all_eq_true.mpr
  intro i hi
  apply List.any_eq_true.mpr
  refine ⟨(i, ctx.verifier_public_key, (List.lookup i sn).getD 0), ?_, by simp⟩
  exact List.mem_append_right _ (List.mem_map.mpr ⟨i, hi, rfl⟩)

/-- Evaluation rule for `isOkAndConfirmed` on an `Ok` status. -/
theorem isOkAndConfirmed_some (s : TxStatus) :
    isOkAndConfirmed (some s) = s.confirmed := rfl

/-- Evaluation rule for `isOkAndNotConfirmed` on an `Ok` status. -/
theorem isOkAndNotConfirmed_some (s : TxStatus) :
    isOkAndNotConfirmed (some s) = !s.confirmed := rfl

/-- Evaluation rule for `blockHeightIsSomeAnd` on a status carrying a block
height. -/
theorem blockHeightIsSomeAnd_some (c : Bool) (h : Nat) (p : Nat → Bool) :
    blockHeightIsSomeAnd (some ⟨c, some h⟩) p = p h := rfl

/-- Claim C1: the claim says `n_of_n_presigned` stays `false` after a
single verifier's `verifier_sign` while the other declared signer's partial
signatures are missing.  The code violates this: on the freshly constructed
demo graph, one `verifier_sign` call by verifier 31 flips the flag to
`true` even though the declared n-of-n set `[31, 32]` does not have all
partial signatures (the source carries a TODO admitting the flag should
only be set after collecting all n-of-n signatures). -/
theorem C1_verifier_sign_sets_presigned_prematurely :
    (demoGraph.n_of_n_presigned = false) ∧
    ((demoGraph.verifier_sign demoVerifier
      demoSecretNonces).n_of_n_presigned = true) ∧
    ((demoGraph.verifier_sign demoVerifier
      demoSecretNonces).has_all_signatures [31, 32] = false) := by
  decide

/-- Claim C2: the claim says `verifier_sign` is refused unless
`has_all_nonces(verifier_pubkeys)` holds.  The code has no such check: on
the demo graph no nonces at all have been collected
(`has_all_nonces [31, 32]` is `false`), yet `verifier_sign` by verifier 31
stores that verifier's partial signatures on every pre-signed
transaction. -/
theorem C2_verifier_sign_signs_without_nonce_check :
    (demoGraph.has_all_nonces [31, 32] = false) ∧
    (demoGraph.has_all_nonces_of demoVerifier = false) ∧
    ((demoGraph.verifier_sign demoVerifier
      demoSecretNonces).has_all_signatures_of demoVerifier = true) := by
  decide

/-- Claim C3: for every graph constructed via the full constructors
(`PegOutGraph::new`), `validate()` returns `true`: the validation
reconstruction reproduces every one of the thirteen transaction bodies
byte-for-byte from the public material and the `Input` tuples already in
the graph, and the nonce checks hold vacuously on the fresh graph. -/
theorem C3_validate_of_new (ctx : OperatorContext) (pegin : PegInGraph)
    (inp : Input) (draw : CommitmentMessageId → WinternitzSecret)
    (vars : List (String × Nat)) (nok : Nat × PublicKey × Nat → Bool) :
    (PegOutGraph.new ctx pegin inp draw vars).1.validate nok = true := by
  have h := new_for_validation_new ctx pegin inp draw vars
  have e1 : (PegOutGraph.new ctx pegin inp draw
    vars).1.assert_initial_transaction.pub_nonces = [] := rfl
  have e2 : (PegOutGraph.new ctx pegin inp draw
    vars).1.assert_final_transaction.pub_nonces = [] := rfl
  have e3 : (PegOutGraph.new ctx pegin inp draw
    vars).1.disprove_chain_transaction.pub_nonces = [] := rfl
  have e4 : (PegOutGraph.new ctx pegin inp draw
    vars).1.disprove_transaction.pub_nonces = [] := rfl
  have e5 : (PegOutGraph.new ctx pegin inp draw
    vars).1.kick_off_timeout_transaction.pub_nonces = [] := rfl
  have e6 : (PegOutGraph.new ctx pegin inp draw
    vars).1.start_time_transaction.pub_nonces = [] := rfl
  have e7 : (PegOutGraph.new ctx pegin inp draw
    vars).1.start_time_timeout_transaction.pub_nonces = [] := rfl
  have e8 : (PegOutGraph.new ctx pegin inp draw
    vars).1.take_1_transaction.pub_nonces = [] := rfl
  have e9 : (PegOutGraph.new ctx pegin inp draw
    vars).1.take_2_transaction.pub_nonces = [] := rfl
  simp [PegOutGraph.validate, h, validate_transaction,
    verify_public_nonces_for_tx, e1, e2, e3, e4, e5, e6, e7, e8, e9]

/-- Claim C4 counterexample: a state satisfying every premise of the claim
(pre-signed; kick-off 1 confirmed at height 100; kick-off 2, both timeouts
and start-time unconfirmed; the leaf-2 window `100 + 72 > 200` closed; the
leaf-1 window `100 + 144 > 200` still open; challenge unconfirmed) on which
the verifier projection does not return `KickOffTimeoutAvailable`: the code
returns `Wait` from the start-time branch instead of falling through. -/
theorem C4_counterexample_no_fall_through :
    (demoGraph4.n_of_n_presigned = true) ∧
    (isOkAndConfirmed
      ((demoGraph4.get_peg_out_statuses demoChain).kick_off_1) = true) ∧
    (isOkAndConfirmed
      ((demoGraph4.get_peg_out_statuses demoChain).kick_off_2) = false) ∧
    (isOkAndConfirmed
      ((demoGraph4.get_peg_out_statuses demoChain).start_time_timeout) =
        false) ∧
    (isOkAndConfirmed
      ((demoGraph4.get_peg_out_statuses demoChain).kick_off_timeout) =
        false) ∧
    (isOkAndNotConfirmed
      ((demoGraph4.get_peg_out_statuses demoChain).start_time) = true) ∧
    (blockHeightIsSomeAnd
      ((demoGraph4.get_peg_out_statuses demoChain).kick_off_1)
      (fun bh => decide (bh + demoGraph4.connector_1.num_blocks_timelock_leaf_2
        > 200)) = false) ∧
    (blockHeightIsSomeAnd
      ((demoGraph4.get_peg_out_statuses demoChain).kick_off_1)
      (fun bh => decide (bh + demoGraph4.connector_1.num_blocks_timelock_leaf_1
        > 200)) = true) ∧
    (isOkAndNotConfirmed
      ((demoGraph4.get_peg_out_statuses demoChain).challenge) = true) ∧
    (demoGraph4.verifier_status demoChain 200 ≠
      PegOutVerifierStatus.PegOutKickOffTimeoutAvailable) := by
  decide

/-- Claim C4, amended: when `n_of_n_presigned` holds, kick-off 1 is
confirmed at height `h`, kick-off 2 is not confirmed, neither timeout is
confirmed, start-time is unconfirmed and the leaf-2 condition
`h + timelock_leaf_2 > now` fails, the verifier projection returns `Wait`
without falling through: the `KickOffTimeoutAvailable` and
`ChallengeAvailable` branches are only reachable when the start-time status
is confirmed or errored. -/
theorem C4_start_time_branch_returns_wait (g : PegOutGraph)
    (chain : ChainOracle) (blockchain_height h : Nat)
    (h1 : g.n_of_n_presigned = true)
    (hko2 : isOkAndConfirmed
      ((g.get_peg_out_statuses chain).kick_off_2) = false)
    (hko1 : (g.get_peg_out_statuses chain).kick_off_1 = some ⟨true, some h⟩)
    (hstt : isOkAndConfirmed
      ((g.get_peg_out_statuses chain).start_time_timeout) = false)
    (hkot : isOkAndConfirmed
      ((g.get_peg_out_statuses chain).kick_off_timeout) = false)
    (hst : isOkAndNotConfirmed
      ((g.get_peg_out_statuses chain).start_time) = true)
    (hlf : ¬ (h + g.connector_1.num_blocks_timelock_leaf_2 >
      blockchain_height)) :
    g.verifier_status chain blockchain_height =
      PegOutVerifierStatus.PegOutWait := by
  simp [PegOutGraph.verifier_status, h1, hko2, hko1, hstt, hkot, hst, hlf,
    isOkAndConfirmed_some, isOkAndNotConfirmed_some, blockHeightIsSomeAnd_some]

/-- Witness for claim C4's amended theorem at the counterexample state. -/
theorem C4_start_time_branch_returns_wait_witness :
    demoGraph4.verifier_status demoChain 200 =
      PegOutVerifierStatus.PegOutWait :=
  C4_start_time_branch_returns_wait demoGraph4 demoChain 200 100 rfl
    (by decide) (by decide) (by decide) (by decide) (by decide) (by decide)

/-- Claim C5: the transactions treated as requiring MuSig2 pre-signing are
exactly assert-initial, assert-final, disprove-chain, disprove,
kick-off-timeout, start-time-timeout, take-1 and take-2:
`all_presigned_txs` lists precisely those eight; `push_verifier_nonces`
and `verifier_sign` give the calling verifier complete nonces and partial
signatures on all eight while leaving every other transaction of the graph
(peg-out-confirm, challenge, kick-off 1, kick-off 2, start-time, and the
optional peg-out transaction) untouched. -/
theorem C5_presigned_set_exact (g : PegOutGraph) (ctx : VerifierContext)
    (nf : Txid → Nat → Nat) (sn : Txid → List (Nat × Nat)) :
    (g.all_presigned_txs =
      [g.assert_initial_transaction, g.assert_final_transaction,
       g.disprove_chain_transaction, g.disprove_transaction,
       g.kick_off_timeout_transaction, g.start_time_timeout_transaction,
       g.take_1_transaction, g.take_2_transaction]) ∧
    ((g.push_verifier_nonces ctx nf).1.peg_out_confirm_transaction =
      g.peg_out_confirm_transaction) ∧
    ((g.push_verifier_nonces ctx nf).1.challenge_transaction =
      g.challenge_transaction) ∧
    ((g.push_verifier_nonces ctx nf).1.kick_off_1_transaction =
      g.kick_off_1_transaction) ∧
    ((g.push_verifier_nonces ctx nf).1.kick_off_2_transaction =
      g.kick_off_2_transaction) ∧
    ((g.push_verifier_nonces ctx nf).1.start_time_transaction =
      g.start_time_transaction) ∧
    ((g.push_verifier_nonces ctx nf).1.peg_out_transaction =
      g.peg_out_transaction) ∧
    ((g.push_verifier_nonces ctx nf).1.has_all_nonces_of ctx = true) ∧
    ((g.verifier_sign ctx sn).peg_out_confirm_transaction =
      g.peg_out_confirm_transaction) ∧
    ((g.verifier_sign ctx sn).challenge_transaction =
      g.challenge_transaction) ∧
    ((g.verifier_sign ctx sn).kick_off_1_transaction =
      g.kick_off_1_transaction) ∧
    ((g.verifier_sign ctx sn).kick_off_2_transaction =
      g.kick_off_2_transaction) ∧
    ((g.verifier_sign ctx sn).start_time_transaction =
      g.start_time_transaction) ∧
    ((g.verifier_sign ctx sn).peg_out_transaction =
      g.peg_out_transaction) ∧
    ((g.verifier_sign ctx sn).has_all_signatures_of ctx = true) := by
  refine ⟨rfl, rfl, rfl, rfl, rfl, rfl, rfl, ?_, rfl, rfl, rfl, rfl, rfl,
    rfl, ?_⟩
  · simp [PegOutGraph.has_all_nonces_of, PegOutGraph.all_presigned_txs,
      PegOutGraph.push_verifier_nonces, push_nonces_has_nonces_for]
  · simp [PegOutGraph.has_all_signatures_of, PegOutGraph.all_presigned_txs,
      PegOutGraph.verifier_sign, pre_sign_has_signatures_for]

/-- Claim C6: in every graph built by `PegOutGraph::new`, each
transaction's inputs reference exactly the producing outputs of the
linkage table (kick-off 1 spends peg-out-confirm[0]; start-time spends
kick-off 1[2]; kick-off 2 and kick-off-timeout spend kick-off 1[1];
assert-initial and disprove-chain spend kick-off 2[1]; disprove spends
assert-final[1] and assert-final[2]; take-1 spends peg-in-confirm[0],
kick-off 1[0], kick-off 2[0] and kick-off 2[1]; take-2 spends
peg-in-confirm[0], assert-final[0], assert-final[1] and assert-final[2]),
and every input's amount equals the producing transaction's
`output[vout].value`. -/
theorem C6_linkage (ctx : OperatorContext) (pegin : PegInGraph)
    (inp : Input) (draw : CommitmentMessageId → WinternitzSecret)
    (vars : List (String × Nat)) :
    let g := (PegOutGraph.new ctx pegin inp draw vars).1
    (g.kick_off_1_transaction.tx.inputs =
      [⟨⟨g.peg_out_confirm_transaction.tx.compute_txid, 0⟩,
        (g.peg_out_confirm_transaction.tx.outputs.getD 0 default).value⟩]) ∧
    (g.start_time_transaction.tx.inputs =
      [⟨⟨g.kick_off_1_transaction.tx.compute_txid, 2⟩,
        (g.kick_off_1_transaction.tx.outputs.getD 2 default).value⟩]) ∧
    (g.kick_off_2_transaction.tx.inputs =
      [⟨⟨g.kick_off_1_transaction.tx.compute_txid, 1⟩,
        (g.kick_off_1_transaction.tx.outputs.getD 1 default).value⟩]) ∧
    (g.kick_off_timeout_transaction.tx.inputs =
      [⟨⟨g.kick_off_1_transaction.tx.compute_txid, 1⟩,
        (g.kick_off_1_transaction.tx.outputs.getD 1 default).value⟩]) ∧
    (g.assert_initial_transaction.tx.inputs =
      [⟨⟨g.kick_off_2_transaction.tx.compute_txid, 1⟩,
        (g.kick_off_2_transaction.tx.outputs.getD 1 default).value⟩]) ∧
    (g.disprove_chain_transaction.tx.inputs =
      [⟨⟨g.kick_off_2_transaction.tx.compute_txid, 1⟩,
        (g.kick_off_2_transaction.tx.outputs.getD 1 default).value⟩]) ∧
    (g.disprove_transaction.tx.inputs =
      [⟨⟨g.assert_final_transaction.tx.compute_txid, 1⟩,
        (g.assert_final_transaction.tx.outputs.getD 1 default).value⟩,
       ⟨⟨g.assert_final_transaction.tx.compute_txid, 2⟩,
        (g.assert_final_transaction.tx.outputs.getD 2 default).value⟩]) ∧
    (g.take_1_transaction.tx.inputs =
      [⟨⟨pegin.peg_in_confirm_tx.compute_txid, 0⟩,
        (pegin.peg_in_confirm_tx.outputs.getD 0 default).value⟩,
       ⟨⟨g.kick_off_1_transaction.tx.compute_txid, 0⟩,
        (g.kick_off_1_transaction.tx.outputs.getD 0 default).value⟩,
       ⟨⟨g.kick_off_2_transaction.tx.compute_txid, 0⟩,
        (g.kick_off_2_transaction.tx.outputs.getD 0 default).value⟩,
       ⟨⟨g.kick_off_2_transaction.tx.compute_txid, 1⟩,
        (g.kick_off_2_transaction.tx.outputs.getD 1 default).value⟩]) ∧
    (g.take_2_transaction.tx.inputs =
      [⟨⟨pegin.peg_in_confirm_tx.compute_txid, 0⟩,
        (pegin.peg_in_confirm_tx.outputs.getD 0 default).value⟩,
       ⟨⟨g.assert_final_transaction.tx.compute_txid, 0⟩,
        (g.assert_final_transaction.tx.outputs.getD 0 default).value⟩,
       ⟨⟨g.assert_final_transaction.tx.compute_txid, 1⟩,
        (g.assert_final_transaction.tx.outputs.getD 1 default).value⟩,
       ⟨⟨g.assert_final_transaction.tx.compute_txid, 2⟩,
        (g.assert_final_transaction.tx.outputs.getD 2 default).value⟩]) :=
  ⟨rfl, rfl, rfl, rfl, rfl, rfl, rfl, rfl, rfl⟩

/-- Claim C7: the operator projection returns `Wait` whenever
`n_of_n_presigned` is false or no peg-out chain event is set; and when both
hold but `peg_out_transaction` is `None` while `peg_out_chain_event` is
`Some`, it returns `StartPegOut`. -/
theorem C7_operator_status_gate (g : PegOutGraph) (chain : ChainOracle)
    (blockchain_height : Nat) :
    ((g.n_of_n_presigned = false ∨ g.peg_out_chain_event = none) →
      g.operator_status chain blockchain_height =
        some PegOutOperatorStatus.PegOutWait) ∧
    (g.n_of_n_presigned = true → g.peg_out_chain_event.isSome = true →
      g.peg_out_transaction = none →
      g.operator_status chain blockchain_height =
        some PegOutOperatorStatus.PegOutStartPegOut) := by
  constructor
  · intro hcase
    rcases hcase with hp | he
    · simp [PegOutGraph.operator_status, hp]
    · simp [PegOutGraph.operator_status, PegOutGraph.is_peg_out_initiated, he]
  · intro hp he hn
    simp [PegOutGraph.operator_status, PegOutGraph.is_peg_out_initiated, hp,
      he, PegOutGraph.get_peg_out_statuses, hn]

/-- Witness for claim C7 at concrete states: the fresh demo graph (not
pre-signed, no event) gets `Wait`; the pre-signed demo graph with a matched
event but no peg-out transaction gets `StartPegOut`. -/
theorem C7_operator_status_gate_witness :
    demoGraph.operator_status demoChain 0 =
      some PegOutOperatorStatus.PegOutWait ∧
    demoGraph7.operator_status demoChain 0 =
      some PegOutOperatorStatus.PegOutStartPegOut :=
  ⟨(C7_operator_status_gate demoGraph demoChain 0).1 (Or.inl rfl),
   (C7_operator_status_gate demoGraph7 demoChain 0).2 rfl rfl rfl⟩

/-- Claim C8: the claim says `match_and_set_peg_out_event` removes exactly
the matched entries and returns the duplicate-match error without panicking
for every position of the matched entries.  The code violates this: with
two matching events at positions 0 and 1 of a two-element list, the
ascending `swap_remove` calls go out of bounds and the call panics (`none`
in the model) instead of returning
`Err("Event from L2 chain is not unique")`. -/
theorem C8_match_event_panics_on_duplicate :
    ((demoGraph.peg_in_confirm_txid == demoEvent.source_outpoint.txid &&
      demoGraph.operator_public_key == demoEvent.operator_public_key) =
        true) ∧
    ((demoGraph.peg_in_confirm_txid == demoEvent2.source_outpoint.txid &&
      demoGraph.operator_public_key == demoEvent2.operator_public_key) =
        true) ∧
    ((demoGraph.match_and_set_peg_out_event [demoEvent, demoEvent2]).isNone =
      true) := by
  decide

/-- Claim C9: the claim says the kick-off-timeout action adds the output
paying `output_script_pubkey` before `finalize`, so the broadcast bytes
include it (as start-time-timeout and disprove-chain do).  The code
violates this: it finalizes first and adds the output afterwards, so the
broadcast transaction lacks the output (while the stored transaction
gains it), unlike the two sibling actions whose broadcast bytes do include
it. -/
theorem C9_kick_off_timeout_broadcast_missing_output :
    ((demoGraph.kick_off_timeout 7).1.outputs.any
      (fun o => o.script_pubkey == 7) = false) ∧
    ((demoGraph.kick_off_timeout 7).2.kick_off_timeout_transaction.tx.outputs.any
      (fun o => o.script_pubkey == 7) = true) ∧
    ((demoGraph.start_time_timeout 7).1.outputs.any
      (fun o => o.script_pubkey == 7) = true) ∧
    ((demoGraph.disprove_chain 7).1.outputs.any
      (fun o => o.script_pubkey == 7) = true) := by
  decide

/-- Claim C10: for every source graph, in any state, the reconstruction
`new_for_validation` always has `n_of_n_presigned = false`,
`peg_out_chain_event = None` and `peg_out_transaction = None`; pre-sign and
peg-out state is never carried over. -/
theorem C10_new_for_validation_resets_state (g : PegOutGraph) :
    (g.new_for_validation.n_of_n_presigned = false) ∧
    (g.new_for_validation.peg_out_chain_event = none) ∧
    (g.new_for_validation.peg_out_transaction = none) :=
  ⟨rfl, rfl, rfl⟩

end PegOut
